import Mathlib

/-!
# OpenDisplay BLE protocol library: verification of spec claims

Shallow embedding of the opendisplay-js core: the TLV configuration codec
(`src/models/config.ts`, `src/protocol/config-serializer.ts`, the TLV parser),
the command builders (`src/protocol/commands.ts`), the response interpreter
(`src/protocol/responses.ts`), and the device orchestrator (`src/device.ts`).

Bytes are modelled as `Nat` values; byte buffers as `List Nat`.  JavaScript
`DataView`/`Uint8Array` stores apply the documented truncation (`% 256`,
`% 65536`, `% 2^32`); signed byte access (`getInt8`/`setInt8`) is modelled on
`Int` with two's-complement wrapping.
-/

namespace OpenDisplay

abbrev Bytes := List Nat

/-- Read one byte (`Uint8Array` indexing / `getUint8`); out-of-range reads
are only used in-bounds by the theorems below. -/
def byteAt (data : Bytes) (i : Nat) : Nat := data.getD i 0

/-- `DataView.getUint16(i, true)` — little-endian. -/
def le16get (data : Bytes) (i : Nat) : Nat :=
  byteAt data i + 256 * byteAt data (i + 1)

/-- `DataView.getUint16(i, false)` — big-endian (opcodes). -/
def be16get (data : Bytes) (i : Nat) : Nat :=
  256 * byteAt data i + byteAt data (i + 1)

/-- The 3-byte little-endian read `data[i] | data[i+1]<<8 | data[i+2]<<16`. -/
def le24get (data : Bytes) (i : Nat) : Nat :=
  byteAt data i + 256 * byteAt data (i + 1) + 65536 * byteAt data (i + 2)

/-- `DataView.getUint32(i, true)` — little-endian. -/
def le32get (data : Bytes) (i : Nat) : Nat :=
  byteAt data i + 256 * byteAt data (i + 1) + 65536 * byteAt data (i + 2) +
    16777216 * byteAt data (i + 3)

/-- `DataView.getInt8(i)` — signed byte. -/
def i8get (data : Bytes) (i : Nat) : Int :=
  let b := byteAt data i
  if b < 128 then (b : Int) else (b : Int) - 256

/-- `DataView.setUint16(_, x, true)`: the two little-endian bytes of `x % 2^16`. -/
def u16le (x : Nat) : Bytes := [x % 256, x / 256 % 256]

/-- `DataView.setUint16(_, x, false)`: the two big-endian bytes of `x % 2^16`. -/
def u16be (x : Nat) : Bytes := [x / 256 % 256, x % 256]

/-- `DataView.setUint32(_, x, true)`: the four little-endian bytes of `x % 2^32`. -/
def u32le (x : Nat) : Bytes :=
  [x % 256, x / 256 % 256, x / 65536 % 256, x / 16777216 % 256]

/-- `DataView.setInt8(_, t)`: the two's-complement byte of `t`. -/
def i8byte (t : Int) : Nat := (t % 256).toNat

/-- `result.set(src.subarray(0, n), off)` into an `n`-byte zero-initialised
region: the first `n` bytes of `src`, zero-padded on the right. -/
def padTo (n : Nat) (l : Bytes) : Bytes :=
  l.take n ++ List.replicate (n - l.length) 0

/-- `data.slice(a, a + n)`. -/
def sliceN (data : Bytes) (a n : Nat) : Bytes := (data.drop a).take n

instance {ε α : Type} [DecidableEq ε] [DecidableEq α] : DecidableEq (Except ε α) := fun
  | .error e, .error e' =>
    match decEq e e' with
    | .isTrue h => .isTrue (h ▸ rfl)
    | .isFalse h => .isFalse (fun c => h (by cases c; rfl))
  | .error _, .ok _ => .isFalse (fun c => Except.noConfusion c)
  | .ok _, .error _ => .isFalse (fun c => Except.noConfusion c)
  | .ok a, .ok a' =>
    match decEq a a' with
    | .isTrue h => .isTrue (h ▸ rfl)
    | .isFalse h => .isFalse (fun c => h (by cases c; rfl))

/-! ## Record types (`src/models/config.ts`)

Each interface is a structure; `fromBytes` follows the source parser, the
`serialize*` functions follow `src/protocol/config-serializer.ts`. -/

structure SystemConfig where
  icType : Nat
  communicationModes : Nat
  deviceFlags : Nat
  pwrPin : Nat
  reserved : Bytes
  deriving DecidableEq, Repr

namespace SystemConfig

/-- `SystemConfig.fromBytes` (22-byte packet). -/
def fromBytes (data : Bytes) : Except String SystemConfig :=
  if data.length < 22 then .error "Invalid SystemConfig size"
  else .ok
    { icType := le16get data 0
      communicationModes := byteAt data 2
      deviceFlags := byteAt data 3
      pwrPin := byteAt data 4
      reserved := sliceN data 5 17 }

/-- Field widths of the documented packed struct, plus the `Uint8Array`
byte invariant on `reserved`. -/
def InRange (c : SystemConfig) : Prop :=
  c.icType < 65536 ∧ c.communicationModes < 256 ∧ c.deviceFlags < 256 ∧
    c.pwrPin < 256 ∧ c.reserved.length = 17 ∧ ∀ x ∈ c.reserved, x < 256

instance (c : SystemConfig) : Decidable c.InRange := by
  unfold InRange; infer_instance

end SystemConfig

/-- `serializeSystemConfig` (22 bytes). -/
def serializeSystemConfig (c : SystemConfig) : Bytes :=
  [c.icType % 256, c.icType / 256 % 256, c.communicationModes % 256,
   c.deviceFlags % 256, c.pwrPin % 256] ++ padTo 17 c.reserved

structure ManufacturerData where
  manufacturerId : Nat
  boardType : Nat
  boardRevision : Nat
  reserved : Bytes
  deriving DecidableEq, Repr

namespace ManufacturerData

/-- `ManufacturerData.fromBytes` (22-byte packet). -/
def fromBytes (data : Bytes) : Except String ManufacturerData :=
  if data.length < 22 then .error "Invalid ManufacturerData size"
  else .ok
    { manufacturerId := le16get data 0
      boardType := byteAt data 2
      boardRevision := byteAt data 3
      reserved := sliceN data 4 18 }

def InRange (c : ManufacturerData) : Prop :=
  c.manufacturerId < 65536 ∧ c.boardType < 256 ∧ c.boardRevision < 256 ∧
    c.reserved.length = 18 ∧ ∀ x ∈ c.reserved, x < 256

instance (c : ManufacturerData) : Decidable c.InRange := by
  unfold InRange; infer_instance

end ManufacturerData

/-- `serializeManufacturerData` (22 bytes). -/
def serializeManufacturerData (c : ManufacturerData) : Bytes :=
  [c.manufacturerId % 256, c.manufacturerId / 256 % 256, c.boardType % 256,
   c.boardRevision % 256] ++ padTo 18 c.reserved

structure PowerOption where
  powerMode : Nat
  batteryCapacityMah : Nat
  sleepTimeoutMs : Nat
  txPower : Int
  sleepFlags : Nat
  batterySensePin : Nat
  batterySenseEnablePin : Nat
  batterySenseFlags : Nat
  capacityEstimator : Nat
  voltageScalingFactor : Nat
  deepSleepCurrentUa : Nat
  deepSleepTimeSeconds : Nat
  reserved : Bytes
  deriving DecidableEq, Repr

namespace PowerOption

/-- `PowerOption.fromBytes` (30-byte packet). -/
def fromBytes (data : Bytes) : Except String PowerOption :=
  if data.length < 30 then .error "Invalid PowerOption size"
  else .ok
    { powerMode := byteAt data 0
      batteryCapacityMah := le24get data 1
      sleepTimeoutMs := le16get data 4
      txPower := i8get data 6
      sleepFlags := byteAt data 7
      batterySensePin := byteAt data 8
      batterySenseEnablePin := byteAt data 9
      batterySenseFlags := byteAt data 10
      capacityEstimator := byteAt data 11
      voltageScalingFactor := le16get data 12
      deepSleepCurrentUa := le32get data 14
      deepSleepTimeSeconds := le16get data 18
      reserved := sliceN data 20 10 }

def InRange (c : PowerOption) : Prop :=
  c.powerMode < 256 ∧ c.batteryCapacityMah < 16777216 ∧ c.sleepTimeoutMs < 65536 ∧
    -128 ≤ c.txPower ∧ c.txPower < 128 ∧ c.sleepFlags < 256 ∧
    c.batterySensePin < 256 ∧ c.batterySenseEnablePin < 256 ∧
    c.batterySenseFlags < 256 ∧ c.capacityEstimator < 256 ∧
    c.voltageScalingFactor < 65536 ∧ c.deepSleepCurrentUa < 4294967296 ∧
    c.deepSleepTimeSeconds < 65536 ∧ c.reserved.length = 10 ∧
    ∀ x ∈ c.reserved, x < 256

instance (c : PowerOption) : Decidable c.InRange := by
  unfold InRange; infer_instance

end PowerOption

/-- `serializePowerOption` (30 bytes). -/
def serializePowerOption (c : PowerOption) : Bytes :=
  [c.powerMode % 256,
   c.batteryCapacityMah % 256, c.batteryCapacityMah / 256 % 256,
   c.batteryCapacityMah / 65536 % 256,
   c.sleepTimeoutMs % 256, c.sleepTimeoutMs / 256 % 256,
   i8byte c.txPower,
   c.sleepFlags % 256, c.batterySensePin % 256, c.batterySenseEnablePin % 256,
   c.batterySenseFlags % 256, c.capacityEstimator % 256] ++
  u16le c.voltageScalingFactor ++ u32le c.deepSleepCurrentUa ++
  u16le c.deepSleepTimeSeconds ++ padTo 10 c.reserved

structure DisplayConfig where
  instanceNumber : Nat
  displayTechnology : Nat
  panelIcType : Nat
  pixelWidth : Nat
  pixelHeight : Nat
  activeWidthMm : Nat
  activeHeightMm : Nat
  tagType : Nat
  rotation : Nat
  resetPin : Nat
  busyPin : Nat
  dcPin : Nat
  csPin : Nat
  dataPin : Nat
  partialUpdateSupport : Nat
  colorScheme : Nat
  transmissionModes : Nat
  clkPin : Nat
  reservedPins : Bytes
  reserved : Bytes
  deriving DecidableEq, Repr

namespace DisplayConfig

/-- `DisplayConfig.fromBytes` (46-byte packet). -/
def fromBytes (data : Bytes) : Except String DisplayConfig :=
  if data.length < 46 then .error "Invalid DisplayConfig size"
  else .ok
    { instanceNumber := byteAt data 0
      displayTechnology := byteAt data 1
      panelIcType := le16get data 2
      pixelWidth := le16get data 4
      pixelHeight := le16get data 6
      activeWidthMm := le16get data 8
      activeHeightMm := le16get data 10
      tagType := le16get data 12
      rotation := byteAt data 14
      resetPin := byteAt data 15
      busyPin := byteAt data 16
      dcPin := byteAt data 17
      csPin := byteAt data 18
      dataPin := byteAt data 19
      partialUpdateSupport := byteAt data 20
      colorScheme := byteAt data 21
      transmissionModes := byteAt data 22
      clkPin := byteAt data 23
      reservedPins := sliceN data 24 7
      reserved := sliceN data 31 15 }

def InRange (c : DisplayConfig) : Prop :=
  c.instanceNumber < 256 ∧ c.displayTechnology < 256 ∧ c.panelIcType < 65536 ∧
    c.pixelWidth < 65536 ∧ c.pixelHeight < 65536 ∧ c.activeWidthMm < 65536 ∧
    c.activeHeightMm < 65536 ∧ c.tagType < 65536 ∧ c.rotation < 256 ∧
    c.resetPin < 256 ∧ c.busyPin < 256 ∧ c.dcPin < 256 ∧ c.csPin < 256 ∧
    c.dataPin < 256 ∧ c.partialUpdateSupport < 256 ∧ c.colorScheme < 256 ∧
    c.transmissionModes < 256 ∧ c.clkPin < 256 ∧
    c.reservedPins.length = 7 ∧ (∀ x ∈ c.reservedPins, x < 256) ∧
    c.reserved.length = 15 ∧ ∀ x ∈ c.reserved, x < 256

instance (c : DisplayConfig) : Decidable c.InRange := by
  unfold InRange; infer_instance

end DisplayConfig

/-- `serializeDisplayConfig` (46 bytes).  The `reservedPins || fill(0xff)` and
`reserved || zeros` defaults in the source apply only to `undefined` fields,
which cannot arise for a well-typed `DisplayConfig` value. -/
def serializeDisplayConfig (c : DisplayConfig) : Bytes :=
  [c.instanceNumber % 256, c.displayTechnology % 256] ++
  u16le c.panelIcType ++ u16le c.pixelWidth ++ u16le c.pixelHeight ++
  u16le c.activeWidthMm ++ u16le c.activeHeightMm ++ u16le c.tagType ++
  [c.rotation % 256, c.resetPin % 256, c.busyPin % 256, c.dcPin % 256,
   c.csPin % 256, c.dataPin % 256, c.partialUpdateSupport % 256,
   c.colorScheme % 256, c.transmissionModes % 256, c.clkPin % 256] ++
  padTo 7 c.reservedPins ++ padTo 15 c.reserved

structure LedConfig where
  instanceNumber : Nat
  ledType : Nat
  led1R : Nat
  led2G : Nat
  led3B : Nat
  led4 : Nat
  ledFlags : Nat
  reserved : Bytes
  deriving DecidableEq, Repr

namespace LedConfig

/-- `LedConfig.fromBytes` (22-byte packet). -/
def fromBytes (data : Bytes) : Except String LedConfig :=
  if data.length < 22 then .error "Invalid LedConfig size"
  else .ok
    { instanceNumber := byteAt data 0
      ledType := byteAt data 1
      led1R := byteAt data 2
      led2G := byteAt data 3
      led3B := byteAt data 4
      led4 := byteAt data 5
      ledFlags := byteAt data 6
      reserved := sliceN data 7 15 }

def InRange (c : LedConfig) : Prop :=
  c.instanceNumber < 256 ∧ c.ledType < 256 ∧ c.led1R < 256 ∧ c.led2G < 256 ∧
    c.led3B < 256 ∧ c.led4 < 256 ∧ c.ledFlags < 256 ∧
    c.reserved.length = 15 ∧ ∀ x ∈ c.reserved, x < 256

instance (c : LedConfig) : Decidable c.InRange := by
  unfold InRange; infer_instance

end LedConfig

/-- `serializeLedConfig` (22 bytes). -/
def serializeLedConfig (c : LedConfig) : Bytes :=
  [c.instanceNumber % 256, c.ledType % 256, c.led1R % 256, c.led2G % 256,
   c.led3B % 256, c.led4 % 256, c.ledFlags % 256] ++ padTo 15 c.reserved

structure SensorData where
  instanceNumber : Nat
  sensorType : Nat
  busId : Nat
  reserved : Bytes
  deriving DecidableEq, Repr

namespace SensorData

/-- `SensorData.fromBytes` (30-byte packet). -/
def fromBytes (data : Bytes) : Except String SensorData :=
  if data.length < 30 then .error "Invalid SensorData size"
  else .ok
    { instanceNumber := byteAt data 0
      sensorType := le16get data 1
      busId := byteAt data 3
      reserved := sliceN data 4 26 }

def InRange (c : SensorData) : Prop :=
  c.instanceNumber < 256 ∧ c.sensorType < 65536 ∧ c.busId < 256 ∧
    c.reserved.length = 26 ∧ ∀ x ∈ c.reserved, x < 256

instance (c : SensorData) : Decidable c.InRange := by
  unfold InRange; infer_instance

end SensorData

/-- `serializeSensorData` (30 bytes). -/
def serializeSensorData (c : SensorData) : Bytes :=
  [c.instanceNumber % 256] ++ u16le c.sensorType ++ [c.busId % 256] ++
  padTo 26 c.reserved

structure DataBus where
  instanceNumber : Nat
  busType : Nat
  pin1 : Nat
  pin2 : Nat
  pin3 : Nat
  pin4 : Nat
  pin5 : Nat
  pin6 : Nat
  pin7 : Nat
  busSpeedHz : Nat
  busFlags : Nat
  pullups : Nat
  pulldowns : Nat
  reserved : Bytes
  deriving DecidableEq, Repr

namespace DataBus

/-- `DataBus.fromBytes` (30-byte packet). -/
def fromBytes (data : Bytes) : Except String DataBus :=
  if data.length < 30 then .error "Invalid DataBus size"
  else .ok
    { instanceNumber := byteAt data 0
      busType := byteAt data 1
      pin1 := byteAt data 2
      pin2 := byteAt data 3
      pin3 := byteAt data 4
      pin4 := byteAt data 5
      pin5 := byteAt data 6
      pin6 := byteAt data 7
      pin7 := byteAt data 8
      busSpeedHz := le32get data 9
      busFlags := byteAt data 13
      pullups := byteAt data 14
      pulldowns := byteAt data 15
      reserved := sliceN data 16 14 }

def InRange (c : DataBus) : Prop :=
  c.instanceNumber < 256 ∧ c.busType < 256 ∧ c.pin1 < 256 ∧ c.pin2 < 256 ∧
    c.pin3 < 256 ∧ c.pin4 < 256 ∧ c.pin5 < 256 ∧ c.pin6 < 256 ∧ c.pin7 < 256 ∧
    c.busSpeedHz < 4294967296 ∧ c.busFlags < 256 ∧ c.pullups < 256 ∧
    c.pulldowns < 256 ∧ c.reserved.length = 14 ∧ ∀ x ∈ c.reserved, x < 256

instance (c : DataBus) : Decidable c.InRange := by
  unfold InRange; infer_instance

end DataBus

/-- `serializeDataBus` (30 bytes). -/
def serializeDataBus (c : DataBus) : Bytes :=
  [c.instanceNumber % 256, c.busType % 256, c.pin1 % 256, c.pin2 % 256,
   c.pin3 % 256, c.pin4 % 256, c.pin5 % 256, c.pin6 % 256, c.pin7 % 256] ++
  u32le c.busSpeedHz ++ [c.busFlags % 256, c.pullups % 256, c.pulldowns % 256] ++
  padTo 14 c.reserved

structure BinaryInputs where
  instanceNumber : Nat
  inputType : Nat
  displayAs : Nat
  reservedPins : Bytes
  inputFlags : Nat
  invert : Nat
  pullups : Nat
  pulldowns : Nat
  reserved : Bytes
  deriving DecidableEq, Repr

namespace BinaryInputs

/-- `BinaryInputs.fromBytes` (30-byte packet). -/
def fromBytes (data : Bytes) : Except String BinaryInputs :=
  if data.length < 30 then .error "Invalid BinaryInputs size"
  else .ok
    { instanceNumber := byteAt data 0
      inputType := byteAt data 1
      displayAs := byteAt data 2
      reservedPins := sliceN data 3 8
      inputFlags := byteAt data 11
      invert := byteAt data 12
      pullups := byteAt data 13
      pulldowns := byteAt data 14
      reserved := sliceN data 15 15 }

def InRange (c : BinaryInputs) : Prop :=
  c.instanceNumber < 256 ∧ c.inputType < 256 ∧ c.displayAs < 256 ∧
    c.reservedPins.length = 8 ∧ (∀ x ∈ c.reservedPins, x < 256) ∧
    c.inputFlags < 256 ∧ c.invert < 256 ∧ c.pullups < 256 ∧ c.pulldowns < 256 ∧
    c.reserved.length = 15 ∧ ∀ x ∈ c.reserved, x < 256

instance (c : BinaryInputs) : Decidable c.InRange := by
  unfold InRange; infer_instance

end BinaryInputs

/-- `serializeBinaryInputs` (30 bytes). -/
def serializeBinaryInputs (c : BinaryInputs) : Bytes :=
  [c.instanceNumber % 256, c.inputType % 256, c.displayAs % 256] ++
  padTo 8 c.reservedPins ++
  [c.inputFlags % 256, c.invert % 256, c.pullups % 256, c.pulldowns % 256] ++
  padTo 15 c.reserved

/-! ## Protocol constants (`src/protocol/constants.ts`) -/

def RESPONSE_HIGH_BIT_FLAG : Nat := 0x8000
def CHUNK_SIZE : Nat := 230
def CONFIG_CHUNK_SIZE : Nat := 200
def MAX_START_PAYLOAD : Nat := 200

/-- `CommandCode` members actually declared in the enum. -/
def READ_CONFIG : Nat := 0x0040
def WRITE_CONFIG : Nat := 0x0041
def WRITE_CONFIG_CHUNK : Nat := 0x0042
def READ_FW_VERSION : Nat := 0x0043
def REBOOT : Nat := 0x000f
def DIRECT_WRITE_START : Nat := 0x0070
def DIRECT_WRITE_DATA : Nat := 0x0071
def DIRECT_WRITE_END : Nat := 0x0072

/-- `CommandCode.REFRESH_COMPLETE`: referenced by `device.ts` but **absent**
from the `CommandCode` enum in `src/protocol/constants.ts`; the member access
denotes no value (`undefined`), modelled as `none`. -/
def REFRESH_COMPLETE? : Option Nat := none

/-- `CommandCode.REFRESH_TIMEOUT`: likewise absent from the enum. -/
def REFRESH_TIMEOUT? : Option Nat := none

/-! ## CRC (`calculateConfigCrc`, `src/protocol/config-serializer.ts`) -/

/-- One bit round of the reflected CRC-32 update: shift right, conditionally
XOR the reversed polynomial `0xEDB88320`. -/
def crcStep (crc : Nat) : Nat :=
  if crc % 2 = 1 then (crc / 2) ^^^ 0xedb88320 else crc / 2

/-- One byte of the CRC-32 update: XOR the byte in, then 8 bit rounds. -/
def crcProcessByte (crc b : Nat) : Nat := crcStep^[8] (crc ^^^ b)

/-- The running CRC-32 register over a byte list, init `0xFFFFFFFF`. -/
def crcAccum (data : Bytes) : Nat := data.foldl crcProcessByte 0xffffffff

/-- `calculateConfigCrc`: CRC-32/ISO-HDLC (reversed polynomial `0xEDB88320`,
init `0xFFFFFFFF`, reflected bit order, final XOR `0xFFFFFFFF`), keeping only
the low 16 bits of the 32-bit result. -/
def calculateConfigCrc (data : Bytes) : Nat :=
  (crcAccum data ^^^ 0xffffffff) % 65536

/-! ## `serializeConfig` -/

structure GlobalConfig where
  system : Option SystemConfig
  manufacturer : Option ManufacturerData
  power : Option PowerOption
  displays : List DisplayConfig
  leds : List LedConfig
  sensors : List SensorData
  dataBuses : List DataBus
  binaryInputs : List BinaryInputs
  version : Nat
  minorVersion : Nat
  loaded : Bool
  deriving DecidableEq, Repr

/-- A present single-instance record: header `[0, type]` then its bytes;
an absent one contributes nothing. -/
def optSection (ty : Nat) (ser : α → Bytes) : Option α → Bytes
  | none => []
  | some x => 0 :: ty :: ser x

/-- The `for (let i = 0; ...)` loop body for one repeatable record list:
header `[i, type]` then the record bytes, `i` counting from the given start. -/
def repeatGo (ty : Nat) (ser : α → Bytes) : Nat → List α → Bytes
  | _, [] => []
  | i, x :: xs => i :: ty :: ser x ++ repeatGo ty ser (i + 1) xs

/-- A repeatable record section: at most 4 instances, tagged `0..3`. -/
def repeatSection (ty : Nat) (ser : α → Bytes) (l : List α) : Bytes :=
  repeatGo ty ser 0 (l.take 4)

/-- Everything `serializeConfig` emits before the CRC: 2 padding bytes,
version byte, then the TLV packets. -/
def configPacketData (c : GlobalConfig) : Bytes :=
  [0, 0, c.version % 256] ++
  optSection 0x01 serializeSystemConfig c.system ++
  optSection 0x02 serializeManufacturerData c.manufacturer ++
  optSection 0x04 serializePowerOption c.power ++
  repeatSection 0x20 serializeDisplayConfig c.displays ++
  repeatSection 0x21 serializeLedConfig c.leds ++
  repeatSection 0x23 serializeSensorData c.sensors ++
  repeatSection 0x24 serializeDataBus c.dataBuses ++
  repeatSection 0x25 serializeBinaryInputs c.binaryInputs

/-- `serializeConfig`: packet data plus 2-byte little-endian CRC16, failing
when the total would exceed 4096 bytes. -/
def serializeConfig (c : GlobalConfig) : Except String Bytes :=
  let packetData := configPacketData c
  if packetData.length + 2 > 4096 then
    .error "Config size exceeds maximum 4096 bytes"
  else
    .ok (packetData ++ u16le (calculateConfigCrc packetData))

/-! ## TLV parser (`parseConfigResponse` / `parseTlvConfig`) -/

inductive ParseErr
  | configParse (msg : String)
  deriving DecidableEq, Repr

/-- `getPacketSize`: the static type→size table; `null` for unknown types. -/
def getPacketSize (packetType : Nat) : Option Nat :=
  if packetType = 0x01 then some 22
  else if packetType = 0x02 then some 22
  else if packetType = 0x04 then some 30
  else if packetType = 0x20 then some 46
  else if packetType = 0x21 then some 22
  else if packetType = 0x23 then some 30
  else if packetType = 0x24 then some 30
  else if packetType = 0x25 then some 30
  else none

/-- `Map.set` with key `(type, number)`: replace in place if the key exists,
else append (JS `Map` preserves insertion order). -/
def mapSet (m : List ((Nat × Nat) × Bytes)) (k : Nat × Nat) (v : Bytes) :
    List ((Nat × Nat) × Bytes) :=
  if m.any (fun e => e.1 = k) then
    m.map (fun e => if e.1 = k then (k, v) else e)
  else m ++ [(k, v)]

/-- The `while (offset < data.length - 1)` walk of `parseTlvConfig`, on the
remaining suffix of the data (the source's absolute `offset` reads correspond
to positions `0`/`1` of the suffix).  An unknown type breaks out of the loop;
a truncated payload of a known type is a hard parse error.  The source's
`offset + 2 > data.length` guard is subsumed by the loop condition. -/
def tlvGo (rem : Bytes) (acc : List ((Nat × Nat) × Bytes)) :
    Except ParseErr (List ((Nat × Nat) × Bytes)) :=
  if _h : rem.length ≤ 1 then .ok acc
  else
    let num := byteAt rem 0
    let ty := byteAt rem 1
    match getPacketSize ty with
    | none => .ok acc
    | some sz =>
      if rem.length - 2 < sz then
        .error (.configParse "Packet truncated")
      else
        tlvGo (rem.drop (2 + sz)) (mapSet acc (ty, num) (sliceN rem 2 sz))
termination_by rem.length
decreasing_by simp [List.length_drop]; omega

/-- `parseSystemConfig` (TLV layer): length guard then `fromBytes`; a
`fromBytes` failure is unreachable after the guard. -/
def parseSystemPacket (data : Bytes) : Except ParseErr SystemConfig :=
  if data.length < 22 then .error (.configParse "SystemConfig too short")
  else (SystemConfig.fromBytes data).mapError .configParse

def parseManufacturerPacket (data : Bytes) : Except ParseErr ManufacturerData :=
  if data.length < 22 then .error (.configParse "ManufacturerData too short")
  else (ManufacturerData.fromBytes data).mapError .configParse

def parsePowerPacket (data : Bytes) : Except ParseErr PowerOption :=
  if data.length < 30 then .error (.configParse "PowerOption too short")
  else (PowerOption.fromBytes data).mapError .configParse

def parseDisplayPacket (data : Bytes) : Except ParseErr DisplayConfig :=
  if data.length < 46 then .error (.configParse "DisplayConfig too short")
  else (DisplayConfig.fromBytes data).mapError .configParse

def parseLedPacket (data : Bytes) : Except ParseErr LedConfig :=
  if data.length < 22 then .error (.configParse "LedConfig too short")
  else (LedConfig.fromBytes data).mapError .configParse

def parseSensorPacket (data : Bytes) : Except ParseErr SensorData :=
  if data.length < 30 then .error (.configParse "SensorData too short")
  else (SensorData.fromBytes data).mapError .configParse

def parseDataBusPacket (data : Bytes) : Except ParseErr DataBus :=
  if data.length < 30 then .error (.configParse "DataBus too short")
  else (DataBus.fromBytes data).mapError .configParse

def parseBinaryInputsPacket (data : Bytes) : Except ParseErr BinaryInputs :=
  if data.length < 30 then .error (.configParse "BinaryInputs too short")
  else (BinaryInputs.fromBytes data).mapError .configParse

/-- The single-pass accumulation state of `parseTlvConfig`'s `for ... of
packets` loop. -/
structure ParseState where
  system : Option SystemConfig := none
  manufacturer : Option ManufacturerData := none
  power : Option PowerOption := none
  displays : List DisplayConfig := []
  leds : List LedConfig := []
  sensors : List SensorData := []
  dataBuses : List DataBus := []
  binaryInputs : List BinaryInputs := []
  deriving DecidableEq, Repr

/-- One `switch (packetType)` dispatch; an unhandled type is skipped. -/
def assembleStep (st : ParseState) (e : (Nat × Nat) × Bytes) :
    Except ParseErr ParseState :=
  let ty := e.1.1
  if ty = 0x01 then do
    let r ← parseSystemPacket e.2
    .ok { st with system := some r }
  else if ty = 0x02 then do
    let r ← parseManufacturerPacket e.2
    .ok { st with manufacturer := some r }
  else if ty = 0x04 then do
    let r ← parsePowerPacket e.2
    .ok { st with power := some r }
  else if ty = 0x20 then do
    let r ← parseDisplayPacket e.2
    .ok { st with displays := st.displays ++ [r] }
  else if ty = 0x21 then do
    let r ← parseLedPacket e.2
    .ok { st with leds := st.leds ++ [r] }
  else if ty = 0x23 then do
    let r ← parseSensorPacket e.2
    .ok { st with sensors := st.sensors ++ [r] }
  else if ty = 0x24 then do
    let r ← parseDataBusPacket e.2
    .ok { st with dataBuses := st.dataBuses ++ [r] }
  else if ty = 0x25 then do
    let r ← parseBinaryInputsPacket e.2
    .ok { st with binaryInputs := st.binaryInputs ++ [r] }
  else .ok st

/-- `parseTlvConfig(data, version)`. -/
def parseTlvConfig (data : Bytes) (version : Nat) : Except ParseErr GlobalConfig :=
  if data.length < 2 then .error (.configParse "TLV data too short")
  else do
    let packets ← tlvGo data []
    let st ← packets.foldlM assembleStep {}
    .ok { system := st.system, manufacturer := st.manufacturer, power := st.power,
          displays := st.displays, leds := st.leds, sensors := st.sensors,
          dataBuses := st.dataBuses, binaryInputs := st.binaryInputs,
          version := version, minorVersion := 1, loaded := true }

/-- `parseConfigResponse(rawData)`: strip the `[length:2][version:1]` wrapper
header and (when more than 5 bytes) the 2-byte trailing CRC, then parse. -/
def parseConfigResponse (rawData : Bytes) : Except ParseErr GlobalConfig :=
  if rawData.length < 5 then .error (.configParse "Config data too short")
  else
    let configVersion := byteAt rawData 2
    let packetData :=
      if rawData.length > 5 then sliceN rawData 3 (rawData.length - 5)
      else rawData.drop 3
    parseTlvConfig packetData configVersion

/-! ## Command builders (`src/protocol/commands.ts`) -/

def buildReadConfigCommand : Bytes := u16be READ_CONFIG

def buildDirectWriteStartUncompressed : Bytes := u16be DIRECT_WRITE_START

/-- `buildDirectWriteStartCompressed`: `[cmd:2][uncompressed_size:4LE]` plus
up to 194 bytes of compressed data; the rest is returned for chunking. -/
def buildDirectWriteStartCompressed (uncompressedSize : Nat)
    (compressedData : Bytes) : Bytes × Bytes :=
  let maxDataInStart := MAX_START_PAYLOAD - 6
  let startCommand :=
    u16be DIRECT_WRITE_START ++ u32le uncompressedSize ++
      compressedData.take maxDataInStart
  let remainingData :=
    if compressedData.length ≤ maxDataInStart then []
    else compressedData.drop maxDataInStart
  (startCommand, remainingData)

/-- `buildDirectWriteDataCommand`: fails on an over-long chunk. -/
def buildDirectWriteDataCommand (chunkData : Bytes) : Except String Bytes :=
  if chunkData.length > CHUNK_SIZE then .error "Chunk size exceeds maximum"
  else .ok (u16be DIRECT_WRITE_DATA ++ chunkData)

def buildDirectWriteEndCommand (refreshMode : Nat) : Bytes :=
  u16be DIRECT_WRITE_END ++ [refreshMode % 256]

/-- The `while (offset < configLen)` continuation-chunk loop of
`buildWriteConfigCommand`, on the remaining config data. -/
def writeChunksGo (rest : Bytes) : List Bytes :=
  if rest.isEmpty then []
  else (u16be WRITE_CONFIG_CHUNK ++ rest.take CONFIG_CHUNK_SIZE) ::
    writeChunksGo (rest.drop CONFIG_CHUNK_SIZE)
termination_by rest.length
decreasing_by
  simp [List.length_drop]
  cases rest <;> simp_all [List.isEmpty, CONFIG_CHUNK_SIZE]

/-- `buildWriteConfigCommand`: single frame for ≤200 bytes, else a first frame
`[cmd:2][total:2LE][first 198 bytes]` plus 200-byte continuation chunks. -/
def buildWriteConfigCommand (configData : Bytes) : Bytes × List Bytes :=
  let configLen := configData.length
  if configLen ≤ CONFIG_CHUNK_SIZE then
    (u16be WRITE_CONFIG ++ configData, [])
  else
    let firstChunkDataSize := CONFIG_CHUNK_SIZE - 2
    let firstCommand :=
      u16be WRITE_CONFIG ++ u16le configLen ++
        padTo firstChunkDataSize (configData.take firstChunkDataSize)
    (firstCommand, writeChunksGo (configData.drop firstChunkDataSize))

/-! ## Concrete test vectors (used by witnesses and counterexamples) -/

def sysW : SystemConfig := ⟨1, 3, 1, 255, List.replicate 17 0⟩
def manW : ManufacturerData := ⟨0x2446, 2, 1, List.replicate 18 5⟩
def powW : PowerOption :=
  ⟨1, 1000, 30000, -3, 0, 255, 255, 0, 1, 1000, 50, 3600, List.replicate 10 1⟩
def dispW : DisplayConfig :=
  ⟨0, 1, 2, 296, 128, 67, 29, 0, 90, 1, 2, 3, 4, 5, 0, 1, 3, 6,
   List.replicate 7 255, List.replicate 15 0⟩
def ledW : LedConfig := ⟨0, 1, 2, 3, 4, 5, 1, List.replicate 15 0⟩
def senW : SensorData := ⟨0, 7, 1, List.replicate 26 0⟩
def busW : DataBus := ⟨0, 1, 2, 3, 4, 5, 6, 7, 8, 400000, 1, 3, 0, List.replicate 14 0⟩
def binW : BinaryInputs := ⟨0, 1, 2, List.replicate 8 9, 1, 0, 3, 0, List.replicate 15 0⟩

/-- A config whose display list has five entries (for the C10 witness). -/
def cfgFiveDisplays : GlobalConfig :=
  ⟨some sysW, none, none, List.replicate 5 dispW, [], [], [], [], 1, 1, true⟩

/-- The list truncation `serializeConfig` applies to each repeatable record
list (`Math.min(length, 4)` loop bound). -/
def truncate4 (c : GlobalConfig) : GlobalConfig :=
  { c with displays := c.displays.take 4, leds := c.leds.take 4,
           sensors := c.sensors.take 4, dataBuses := c.dataBuses.take 4,
           binaryInputs := c.binaryInputs.take 4 }

/-! ## Block-level view of the serialized TLV stream

`configPacketData` is, after the 3-byte header, a concatenation of blocks
`[num, ty] ++ payload`; the parser's packet map recovers exactly these blocks
keyed by `(ty, num)`.  The following definitions express that block structure
for the round-trip proof. -/

/-- Emit a block list as bytes: each block is `[num, ty] ++ payload` for key
`(ty, num)`. -/
def encodeBlocks : List ((Nat × Nat) × Bytes) → Bytes
  | [] => []
  | ((ty, num), payload) :: bs => num :: ty :: payload ++ encodeBlocks bs

/-- A block whose payload length matches the declared size of its type. -/
def GoodBlock (e : (Nat × Nat) × Bytes) : Prop :=
  getPacketSize e.1.1 = some e.2.length

/-- Block view of `optSection`. -/
def optBlocks (ty : Nat) (ser : α → Bytes) : Option α → List ((Nat × Nat) × Bytes)
  | none => []
  | some x => [((ty, 0), ser x)]

/-- Block view of `repeatGo`. -/
def repeatBlocksGo (ty : Nat) (ser : α → Bytes) :
    Nat → List α → List ((Nat × Nat) × Bytes)
  | _, [] => []
  | i, x :: xs => ((ty, i), ser x) :: repeatBlocksGo ty ser (i + 1) xs

/-- Block view of `repeatSection`. -/
def repeatBlocks (ty : Nat) (ser : α → Bytes) (l : List α) :
    List ((Nat × Nat) × Bytes) :=
  repeatBlocksGo ty ser 0 (l.take 4)

/-- Block view of `configPacketData` (everything after the 3-byte header). -/
def configBlocks (c : GlobalConfig) : List ((Nat × Nat) × Bytes) :=
  optBlocks 0x01 serializeSystemConfig c.system ++
  optBlocks 0x02 serializeManufacturerData c.manufacturer ++
  optBlocks 0x04 serializePowerOption c.power ++
  repeatBlocks 0x20 serializeDisplayConfig c.displays ++
  repeatBlocks 0x21 serializeLedConfig c.leds ++
  repeatBlocks 0x23 serializeSensorData c.sensors ++
  repeatBlocks 0x24 serializeDataBus c.dataBuses ++
  repeatBlocks 0x25 serializeBinaryInputs c.binaryInputs

/-- `P` holds of the value, if present. -/
def optInRange (P : α → Prop) : Option α → Prop
  | none => True
  | some x => P x

instance (P : α → Prop) [DecidablePred P] (o : Option α) :
    Decidable (optInRange P o) := by
  cases o <;> simp [optInRange] <;> infer_instance

/-- A well-formed `GlobalConfig`: at most one of each single-instance record,
at most 4 entries per repeatable list, every record's fields within the
documented widths, and a byte-sized version. -/
def GlobalConfig.WellFormed (c : GlobalConfig) : Prop :=
  optInRange SystemConfig.InRange c.system ∧
  optInRange ManufacturerData.InRange c.manufacturer ∧
  optInRange PowerOption.InRange c.power ∧
  (∀ x ∈ c.displays, x.InRange) ∧ c.displays.length ≤ 4 ∧
  (∀ x ∈ c.leds, x.InRange) ∧ c.leds.length ≤ 4 ∧
  (∀ x ∈ c.sensors, x.InRange) ∧ c.sensors.length ≤ 4 ∧
  (∀ x ∈ c.dataBuses, x.InRange) ∧ c.dataBuses.length ≤ 4 ∧
  (∀ x ∈ c.binaryInputs, x.InRange) ∧ c.binaryInputs.length ≤ 4 ∧
  c.version < 256

instance (c : GlobalConfig) : Decidable c.WellFormed := by
  unfold GlobalConfig.WellFormed; infer_instance

/-- The config carries at least one record. -/
def GlobalConfig.hasAnyRecord (c : GlobalConfig) : Prop :=
  c.system.isSome ∨ c.manufacturer.isSome ∨ c.power.isSome ∨
    c.displays ≠ [] ∨ c.leds ≠ [] ∨ c.sensors ≠ [] ∨ c.dataBuses ≠ [] ∨
    c.binaryInputs ≠ []

instance (c : GlobalConfig) : Decidable c.hasAnyRecord := by
  unfold GlobalConfig.hasAnyRecord; infer_instance

/-- Serialize a config and parse the resulting bytes back (the round trip the
spec asserts); a serialization failure is surfaced as a parse error. -/
def serializeThenParse (c : GlobalConfig) : Except ParseErr GlobalConfig :=
  match serializeConfig c with
  | .error e => .error (.configParse e)
  | .ok bs => parseConfigResponse bs

/-- A well-formed config with one system record (C2 witness). -/
def cfgW : GlobalConfig :=
  ⟨some sysW, none, none, [], [], [], [], [], 1, 1, true⟩

/-- A well-formed config whose `minorVersion` field is 0 (C2 counterexample). -/
def cfgMinor0 : GlobalConfig :=
  ⟨some sysW, none, none, [], [], [], [], [], 1, 0, true⟩

/-- A well-formed, record-free config with version 26: its serialization is 5
bytes, so the parser keeps the CRC bytes in the packet data, and the CRC high
byte (0x20) collides with the display packet type (C2 counterexample). -/
def cfgEmpty26 : GlobalConfig :=
  ⟨none, none, none, [], [], [], [], [], 26, 1, true⟩

/-! ## Response interpreter (`src/protocol/responses.ts`) -/

/-- `unpackCommandCode(data, offset)`: 2-byte big-endian opcode. -/
def unpackCommandCode (data : Bytes) (offset : Nat) : Nat := be16get data offset

/-- `stripCommandEcho`: drop a leading 2-byte echo of the expected command
(plain or with the ack bit), otherwise return the data unchanged. -/
def stripCommandEcho (data : Bytes) (expectedCmd : Nat) : Bytes :=
  if 2 ≤ data.length ∧ (unpackCommandCode data 0 = expectedCmd ∨
      unpackCommandCode data 0 = (expectedCmd ||| RESPONSE_HIGH_BIT_FLAG)) then
    data.drop 2
  else data

/-- `checkResponseType`: split the leading opcode into the command (high bit
cleared; JS computes `code & ~0x8000` on 32 bits, i.e. `&&& 0xFFFF7FFF`) and
the ack flag. -/
def checkResponseType (response : Bytes) : Nat × Bool :=
  let code := unpackCommandCode response 0
  (code &&& 0xFFFF7FFF, code &&& RESPONSE_HIGH_BIT_FLAG != 0)

/-! ## Transport and orchestrator model (`src/device.ts`,
`src/transport/connection.ts`)

A `readResponse` call observes one event: a frame, a timeout, or a lost
connection.  The connection state records the pending events, the timeouts of
the reads performed so far (so that retry behaviour is observable), and the
frames written so far. -/

inductive Ev
  | frame (r : Bytes)
  | timeout
  | connLost
  deriving DecidableEq, Repr

inductive OError
  | bleTimeout
  | bleConnection
  | protocolError (msg : String)
  | invalidResponse (msg : String)
  | configParseError (msg : String)
  | genericError (msg : String)
  deriving DecidableEq, Repr

structure Conn where
  events : List Ev
  log : List Nat := []
  written : List Bytes := []
  deriving DecidableEq, Repr

def TIMEOUT_FIRST_CHUNK : Nat := 10000
def TIMEOUT_CHUNK : Nat := 2000
def TIMEOUT_ACK : Nat := 5000
def TIMEOUT_REFRESH : Nat := 90000

/-- `connection.readResponse(timeoutMs)`: consume the next event; an empty
stream behaves as a device that never answers (timeout). -/
def readResponse (t : Nat) (c : Conn) : Conn × Except OError Bytes :=
  let c' := { c with log := c.log ++ [t] }
  match c'.events with
  | [] => (c', .error .bleTimeout)
  | .frame r :: rest => ({ c' with events := rest }, .ok r)
  | .timeout :: rest => ({ c' with events := rest }, .error .bleTimeout)
  | .connLost :: rest => ({ c' with events := rest }, .error .bleConnection)

/-- `connection.writeCommand(bytes)`. -/
def writeCommand (b : Bytes) (c : Conn) : Conn :=
  { c with written := c.written ++ [b] }

/-- `validateAckResponse`: the echoed opcode must be the expected command,
plain or with the ack bit set. -/
def validateAckResponse (data : Bytes) (expectedCommand : Nat) :
    Except OError Unit :=
  if data.length < 2 then .error (.invalidResponse "ACK too short")
  else
    let responseCode := unpackCommandCode data 0
    if responseCode = expectedCommand ∨
        responseCode = (expectedCommand ||| RESPONSE_HIGH_BIT_FLAG) then .ok ()
    else .error (.invalidResponse "ACK mismatch")

/-- The chunk-loop read with timeout recovery (`sendDataChunks`, lines
697–720): a `BLETimeoutError` from the short read — and only that error
class — triggers one more read with the long refresh timeout. -/
def readWithRecovery (c : Conn) : Conn × Except OError Bytes :=
  match readResponse TIMEOUT_ACK c with
  | (c', .ok r) => (c', .ok r)
  | (c', .error .bleTimeout) => readResponse TIMEOUT_REFRESH c'
  | (c', .error e) => (c', .error e)

/-- The `while (bytesSent < imageData.length)` loop of `sendDataChunks`, on
the remaining data.  A data ack continues; an early `DIRECT_WRITE_END`
response returns the auto-completed signal; any other opcode is a protocol
error.  Progress/status callbacks are advisory and not modelled. -/
def sendChunksGo (remaining : Bytes) (c : Conn) : Conn × Except OError Bool :=
  if remaining.isEmpty then (c, .ok false)
  else
    let chunkData := remaining.take CHUNK_SIZE
    match buildDirectWriteDataCommand chunkData with
    | .error e => (c, .error (.genericError e))
    | .ok dataCmd =>
      let c1 := writeCommand dataCmd c
      match readWithRecovery c1 with
      | (c2, .error e) => (c2, .error e)
      | (c2, .ok response) =>
        let cmd := (checkResponseType response).1
        if cmd = DIRECT_WRITE_DATA then
          sendChunksGo (remaining.drop CHUNK_SIZE) c2
        else if cmd = DIRECT_WRITE_END then
          (c2, .ok true)
        else
          (c2, .error (.protocolError "Unexpected response"))
termination_by remaining.length
decreasing_by
  simp [List.length_drop]
  cases remaining <;> simp_all [List.isEmpty, CHUNK_SIZE]

/-- `sendDataChunks(imageData)`: true iff the device auto-completed. -/
def sendDataChunks (imageData : Bytes) (c : Conn) : Conn × Except OError Bool :=
  sendChunksGo imageData c

/-- The refresh-notification dispatch of `executeUpload` (both branches):
compare the received command code against `CommandCode.REFRESH_COMPLETE` and
`CommandCode.REFRESH_TIMEOUT`.  Those members are **absent** from the enum, so
the comparisons are against no value and can never succeed. -/
def refreshDispatch (code : Nat) : Except OError Unit :=
  if some code = REFRESH_COMPLETE? then .ok ()
  else if some code = REFRESH_TIMEOUT? then
    .error (.protocolError "Display refresh timed out")
  else .error (.protocolError "Unexpected refresh response")

/-- Wait (long timeout) for the refresh notification and dispatch on it. -/
def awaitRefresh (c : Conn) : Conn × Except OError Unit :=
  match readResponse TIMEOUT_REFRESH c with
  | (c', .error e) => (c', .error e)
  | (c', .ok refreshResponse) =>
    (c', refreshDispatch (checkResponseType refreshResponse).1)

/-- `executeUpload`: START, START-ack, data chunks, then — unless the device
auto-completed — the END frame and its ack, and finally the refresh wait.
`clearQueue()` drops stale buffered frames; the event list models only future
notifications, so it is the identity here.  Timing/progress callbacks are
advisory and not modelled. -/
def executeUpload (imageData : Bytes) (refreshMode : Nat) (useCompression : Bool)
    (compressedData : Bytes) (uncompressedSize : Nat) (c : Conn) :
    Conn × Except OError Unit :=
  let startPair :=
    if useCompression then
      buildDirectWriteStartCompressed uncompressedSize compressedData
    else (buildDirectWriteStartUncompressed, ([] : Bytes))
  let c1 := writeCommand startPair.1 c
  match readResponse TIMEOUT_ACK c1 with
  | (c2, .error e) => (c2, .error e)
  | (c2, .ok response) =>
    match validateAckResponse response DIRECT_WRITE_START with
    | .error e => (c2, .error e)
    | .ok _ =>
      let chunkStep :=
        if useCompression then
          if startPair.2.isEmpty then (c2, Except.ok false)
          else sendDataChunks startPair.2 c2
        else sendDataChunks imageData c2
      match chunkStep with
      | (c3, .error e) => (c3, .error e)
      | (c3, .ok autoCompleted) =>
        if autoCompleted then awaitRefresh c3
        else
          let c4 := writeCommand (buildDirectWriteEndCommand refreshMode) c3
          match readResponse TIMEOUT_ACK c4 with
          | (c5, .error e) => (c5, .error e)
          | (c5, .ok endResp) =>
            match validateAckResponse endResp DIRECT_WRITE_END with
            | .error e => (c5, .error e)
            | .ok _ => awaitRefresh c5

/-- The `while (currentLength < totalLength)` continuation loop of
`interrogate` (lines 209–220).  The body's read is `readResponse
TIMEOUT_CHUNK`, inlined as a match on the event list so the recursion is
visibly on the remaining events; each continuation frame is echo-stripped,
then its first 2 bytes (chunk marker) are dropped and the rest is payload.
Byte counting follows the source's JS arithmetic on `Int`. -/
def interrogateLoop (totalLength currentLength : Int) (tlvData : List Bytes)
    (c : Conn) : Conn × Except OError (List Bytes) :=
  if currentLength < totalLength then
    let c' := { c with log := c.log ++ [TIMEOUT_CHUNK] }
    match _h : c.events with
    | [] => (c', .error .bleTimeout)
    | .timeout :: rest => ({ c' with events := rest }, .error .bleTimeout)
    | .connLost :: rest => ({ c' with events := rest }, .error .bleConnection)
    | .frame nextResponse :: rest =>
      let nextChunkData := stripCommandEcho nextResponse READ_CONFIG
      interrogateLoop totalLength
        (currentLength + (nextChunkData.length : Int) - 2)
        (tlvData ++ [nextChunkData.drop 2]) { c' with events := rest }
  else (c, .ok tlvData)
termination_by c.events.length
decreasing_by rw [_h]; simp

/-- The reassembly phase of `interrogate` (lines 191–231): send read-config,
echo-strip the first response, read the 2-byte little-endian total length at
offset 2 of the stripped data, take the remainder from offset 4 as the first
payload, then run the continuation loop and concatenate all payload slices. -/
def interrogateAssemble (c : Conn) : Conn × Except OError Bytes :=
  let c1 := writeCommand buildReadConfigCommand c
  match readResponse TIMEOUT_FIRST_CHUNK c1 with
  | (c2, .error e) => (c2, .error e)
  | (c2, .ok response) =>
    let chunkData := stripCommandEcho response READ_CONFIG
    let totalLength := le16get chunkData 2
    match interrogateLoop totalLength ((chunkData.length : Int) - 4)
        [chunkData.drop 4] c2 with
    | (c3, .error e) => (c3, .error e)
    | (c3, .ok tlvData) => (c3, .ok tlvData.flatten)

/-- `interrogate`: reassemble, then hand to `parseConfigResponse`. -/
def interrogate (c : Conn) : Conn × Except OError GlobalConfig :=
  match interrogateAssemble c with
  | (c', .error e) => (c', .error e)
  | (c', .ok completeData) =>
    (c', (parseConfigResponse completeData).mapError
      fun e => match e with | .configParse m => .configParseError m)

/-- The spec's reading of the first-frame layout (§4.5 "read a 2-byte
little-endian total-length field immediately after the echo (remainder of
that frame is payload)"), modelled for comparison with
`interrogateAssemble`: the length is at offset 0 of the echo-stripped data
and the payload starts at offset 2. -/
def interrogateAssembleSpec (c : Conn) : Conn × Except OError Bytes :=
  let c1 := writeCommand buildReadConfigCommand c
  match readResponse TIMEOUT_FIRST_CHUNK c1 with
  | (c2, .error e) => (c2, .error e)
  | (c2, .ok response) =>
    let chunkData := stripCommandEcho response READ_CONFIG
    let totalLength := le16get chunkData 0
    match interrogateLoop totalLength ((chunkData.length : Int) - 2)
        [chunkData.drop 2] c2 with
    | (c3, .error e) => (c3, .error e)
    | (c3, .ok tlvData) => (c3, .ok tlvData.flatten)

/-- The ack-per-chunk loop of `writeConfig` (lines 378–390). -/
def writeConfigChunksLoop (chunkCmds : List Bytes) (c : Conn) :
    Conn × Except OError Unit :=
  match chunkCmds with
  | [] => (c, .ok ())
  | cmd :: rest =>
    let c1 := writeCommand cmd c
    match readResponse TIMEOUT_ACK c1 with
    | (c2, .error e) => (c2, .error e)
    | (c2, .ok response) =>
      match validateAckResponse response WRITE_CONFIG_CHUNK with
      | .error e => (c2, .error e)
      | .ok _ => writeConfigChunksLoop rest c2

/-- `writeConfig`: validate, serialize, send the first frame, then each
continuation chunk, awaiting a matching ack after every frame. -/
def writeConfig (config : GlobalConfig) (c : Conn) : Conn × Except OError Unit :=
  if config.displays.isEmpty then
    (c, .error (.genericError "Config must have at least one display"))
  else
    match serializeConfig config with
    | .error e => (c, .error (.genericError e))
    | .ok configData =>
      let cmds := buildWriteConfigCommand configData
      let c1 := writeCommand cmds.1 c
      match readResponse TIMEOUT_ACK c1 with
      | (c2, .error e) => (c2, .error e)
      | (c2, .ok response) =>
        match validateAckResponse response WRITE_CONFIG with
        | .error e => (c2, .error e)
        | .ok _ => writeConfigChunksLoop cmds.2 c2

/-- The first `n` data-chunk commands `sendDataChunks` emits for `data`. -/
def chunkCmds : Bytes → Nat → List Bytes
  | _, 0 => []
  | data, n + 1 =>
    (u16be DIRECT_WRITE_DATA ++ data.take CHUNK_SIZE) ::
      chunkCmds (data.drop CHUNK_SIZE) n

/-- A frame whose stripped command code is the data-ack opcode. -/
def DataAck (r : Bytes) : Prop := (checkResponseType r).1 = DIRECT_WRITE_DATA

instance (r : Bytes) : Decidable (DataAck r) := by unfold DataAck; infer_instance

/-- A frame whose stripped command code is the end opcode. -/
def EndResp (r : Bytes) : Prop := (checkResponseType r).1 = DIRECT_WRITE_END

instance (r : Bytes) : Decidable (EndResp r) := by unfold EndResp; infer_instance

/-- A frame that does not begin with the read-config echo, so
`stripCommandEcho` leaves it unchanged (continuation frames). -/
def NotReadConfigEcho (g : Bytes) : Prop :=
  ¬ (2 ≤ g.length ∧ (unpackCommandCode g 0 = READ_CONFIG ∨
      unpackCommandCode g 0 = (READ_CONFIG ||| RESPONSE_HIGH_BIT_FLAG)))

instance (g : Bytes) : Decidable (NotReadConfigEcho g) := by
  unfold NotReadConfigEcho; infer_instance

/-- Single pass checking that every CRC register state reachable from `c` in
`1..n` bit rounds has nonzero low 16 bits (used for the C7 bit-flip claim). -/
def crcDiffCheck : Nat → Nat → Bool
  | 0, _ => true
  | n + 1, c =>
    let c' := crcStep c
    (c' % 65536 != 0) && crcDiffCheck n c'

/-- Flip bit `j` of byte `i`. -/
def flipBit (l : Bytes) (i j : Nat) : Bytes := l.set i (byteAt l i ^^^ 2 ^ j)

/-! ## Interrogate/upload test vectors and payload accounting -/

def exDivergeEvents : List Ev :=
  [.frame [0x00, 0x40, 0x02, 0x00, 0x03, 0x00, 0xAA],
   .frame [0x09, 0x09, 0xBB, 0xCC]]

def sumPayload : List Bytes → Int
  | [] => 0
  | g :: gs => ((g.length : Int) - 2) + sumPayload gs

def ex500Events : List Ev :=
  [.frame ([0x00, 0x40, 0xAB, 0xCD, 0xF4, 0x01] ++ List.replicate 196 0x11),
   .frame ([0x01, 0x00] ++ List.replicate 150 0x22),
   .frame ([0x02, 0x00] ++ List.replicate 150 0x33),
   .frame ([0x03, 0x00] ++ List.replicate 4 0x44)]

def ex500Assembled : Bytes :=
  List.replicate 196 0x11 ++ List.replicate 150 0x22 ++
    List.replicate 150 0x33 ++ List.replicate 4 0x44

/-! # Theorems -/

theorem padTo_eq_self {n : Nat} {l : Bytes} (h : l.length = n) : padTo n l = l := by
  subst h
  simp [padTo]

/-! ## Per-record round trips (helpers shared by the C2 and C3 theorems) -/

theorem len_explicit7 (l : Bytes) (h : l.length = 7) :
    ∃ a0 a1 a2 a3 a4 a5 a6, l = [a0, a1, a2, a3, a4, a5, a6] := by
  obtain ⟨a0, l, rfl⟩ := List.exists_of_length_succ l (show l.length = 6 + 1 by omega)
  obtain ⟨a1, l, rfl⟩ := List.exists_of_length_succ l (show l.length = 5 + 1 by simp at h; omega)
  obtain ⟨a2, l, rfl⟩ := List.exists_of_length_succ l (show l.length = 4 + 1 by simp at h; omega)
  obtain ⟨a3, l, rfl⟩ := List.exists_of_length_succ l (show l.length = 3 + 1 by simp at h; omega)
  obtain ⟨a4, l, rfl⟩ := List.exists_of_length_succ l (show l.length = 2 + 1 by simp at h; omega)
  obtain ⟨a5, l, rfl⟩ := List.exists_of_length_succ l (show l.length = 1 + 1 by simp at h; omega)
  obtain ⟨a6, l, rfl⟩ := List.exists_of_length_succ l (show l.length = 0 + 1 by simp at h; omega)
  simp only [List.length_cons] at h
  have : l = [] := List.eq_nil_of_length_eq_zero (by omega)
  subst this
  exact ⟨a0, a1, a2, a3, a4, a5, a6, rfl⟩

theorem len_explicit8 (l : Bytes) (h : l.length = 8) :
    ∃ a0 a1 a2 a3 a4 a5 a6 a7, l = [a0, a1, a2, a3, a4, a5, a6, a7] := by
  obtain ⟨a0, l, rfl⟩ := List.exists_of_length_succ l (show l.length = 7 + 1 by omega)
  obtain ⟨a1, a2, a3, a4, a5, a6, a7, rfl⟩ := len_explicit7 l (by simp at h; omega)
  exact ⟨a0, a1, a2, a3, a4, a5, a6, a7, rfl⟩

theorem systemConfig_roundTrip (c : SystemConfig) (h : c.InRange) :
    SystemConfig.fromBytes (serializeSystemConfig c) = .ok c := by
  obtain ⟨icType, communicationModes, deviceFlags, pwrPin, reserved⟩ := c
  obtain ⟨h1, h2, h3, h4, h5, _⟩ := h
  simp only [SystemConfig.fromBytes, serializeSystemConfig, padTo_eq_self h5] at *
  simp [le16get, byteAt, sliceN, List.getD, h5, List.take_of_length_le,
    Nat.mod_eq_of_lt, h2, h3, h4]
  omega

theorem manufacturerData_roundTrip (c : ManufacturerData) (h : c.InRange) :
    ManufacturerData.fromBytes (serializeManufacturerData c) = .ok c := by
  obtain ⟨manufacturerId, boardType, boardRevision, reserved⟩ := c
  obtain ⟨h1, h2, h3, h4, _⟩ := h
  simp only [ManufacturerData.fromBytes, serializeManufacturerData, padTo_eq_self h4] at *
  simp [le16get, byteAt, sliceN, List.getD, h4, List.take_of_length_le,
    Nat.mod_eq_of_lt, h2, h3]
  omega

theorem powerOption_roundTrip (c : PowerOption) (h : c.InRange) :
    PowerOption.fromBytes (serializePowerOption c) = .ok c := by
  obtain ⟨pm, bat, slp, tx, sf, bsp, bsep, bsf, ce, vsf, dsc, dst, reserved⟩ := c
  obtain ⟨h1, h2, h3, h4a, h4b, h5, h6, h7, h8, h9, h10, h11, h12, h13, _⟩ := h
  simp only [PowerOption.fromBytes, serializePowerOption, padTo_eq_self h13,
    u16le, u32le, i8byte] at *
  simp [le16get, le24get, le32get, i8get, byteAt, sliceN, List.getD, h13,
    List.take_of_length_le, Nat.mod_eq_of_lt, h1, h5, h6, h7, h8, h9]
  refine ⟨by omega, by omega, ?_, by omega, by omega, by omega⟩
  split <;> omega

theorem displayConfig_roundTrip (c : DisplayConfig) (h : c.InRange) :
    DisplayConfig.fromBytes (serializeDisplayConfig c) = .ok c := by
  obtain ⟨inst, dt, pit, pw, ph, awm, ahm, tt, rot, rp, bp, dcp, csp, dp, pus,
    cs, tm, clk, rpins, reserved⟩ := c
  obtain ⟨g1, g2, g3, g4, g5, g6, g7, g8, g9, g10, g11, g12, g13, g14, g15, g16,
    g17, g18, g19, _, g21, _⟩ := h
  obtain ⟨p0, p1, p2, p3, p4, p5, p6, rfl⟩ := len_explicit7 rpins g19
  simp only [DisplayConfig.fromBytes, serializeDisplayConfig, padTo_eq_self g19,
    padTo_eq_self g21, u16le] at *
  simp [le16get, byteAt, sliceN, List.getD, g21, List.take_of_length_le,
    Nat.mod_eq_of_lt, g1, g2, g9, g10, g11, g12, g13, g14, g15, g16, g17, g18]
  omega

theorem ledConfig_roundTrip (c : LedConfig) (h : c.InRange) :
    LedConfig.fromBytes (serializeLedConfig c) = .ok c := by
  obtain ⟨inst, lt, l1, l2, l3, l4, lf, reserved⟩ := c
  obtain ⟨h1, h2, h3, h4, h5, h6, h7, h8, _⟩ := h
  simp only [LedConfig.fromBytes, serializeLedConfig, padTo_eq_self h8] at *
  simp [byteAt, sliceN, List.getD, h8, List.take_of_length_le,
    Nat.mod_eq_of_lt, h1, h2, h3, h4, h5, h6, h7]

theorem sensorData_roundTrip (c : SensorData) (h : c.InRange) :
    SensorData.fromBytes (serializeSensorData c) = .ok c := by
  obtain ⟨inst, st, bus, reserved⟩ := c
  obtain ⟨h1, h2, h3, h4, _⟩ := h
  simp only [SensorData.fromBytes, serializeSensorData, padTo_eq_self h4, u16le] at *
  simp [le16get, byteAt, sliceN, List.getD, h4, List.take_of_length_le,
    Nat.mod_eq_of_lt, h1, h3]
  omega

theorem dataBus_roundTrip (c : DataBus) (h : c.InRange) :
    DataBus.fromBytes (serializeDataBus c) = .ok c := by
  obtain ⟨inst, bt, p1, p2, p3, p4, p5, p6, p7, spd, bf, pu, pd, reserved⟩ := c
  obtain ⟨h1, h2, h3, h4, h5, h6, h7, h8, h9, h10, h11, h12, h13, h14, _⟩ := h
  simp only [DataBus.fromBytes, serializeDataBus, padTo_eq_self h14, u32le] at *
  simp [le32get, byteAt, sliceN, List.getD, h14, List.take_of_length_le,
    Nat.mod_eq_of_lt, h1, h2, h3, h4, h5, h6, h7, h8, h9, h11, h12, h13]
  omega

theorem binaryInputs_roundTrip (c : BinaryInputs) (h : c.InRange) :
    BinaryInputs.fromBytes (serializeBinaryInputs c) = .ok c := by
  obtain ⟨inst, it, da, rpins, ifl, inv, pu, pd, reserved⟩ := c
  obtain ⟨h1, h2, h3, h4, _, h6, h7, h8, h9, h10, _⟩ := h
  obtain ⟨p0, p1, p2, p3, p4, p5, p6, p7, rfl⟩ := len_explicit8 rpins h4
  simp only [BinaryInputs.fromBytes, serializeBinaryInputs, padTo_eq_self h4,
    padTo_eq_self h10] at *
  simp [byteAt, sliceN, List.getD, h10, List.take_of_length_le,
    Nat.mod_eq_of_lt, h1, h2, h3, h6, h7, h8, h9]

/-! ## Reserved regions survive a decode→encode round trip -/

theorem systemConfig_reserved_preserved (data : Bytes) (r : SystemConfig)
    (h : SystemConfig.fromBytes data = .ok r) :
    sliceN (serializeSystemConfig r) 5 17 = sliceN data 5 17 := by
  unfold SystemConfig.fromBytes at h
  split at h
  · exact absurd h (by simp)
  · rename_i hlen
    have hr : r.reserved = sliceN data 5 17 := by
      have := (Except.ok.injEq _ _).mp h
      rw [← this]
    have hlen17 : r.reserved.length = 17 := by
      rw [hr]; simp [sliceN]; omega
    simp [serializeSystemConfig, sliceN, padTo_eq_self hlen17, ← hr,
      List.take_of_length_le, hlen17]
    exact hr

theorem manufacturerData_reserved_preserved (data : Bytes) (r : ManufacturerData)
    (h : ManufacturerData.fromBytes data = .ok r) :
    sliceN (serializeManufacturerData r) 4 18 = sliceN data 4 18 := by
  unfold ManufacturerData.fromBytes at h
  split at h
  · exact absurd h (by simp)
  · rename_i hlen
    have hr : r.reserved = sliceN data 4 18 := by
      have := (Except.ok.injEq _ _).mp h
      rw [← this]
    have hlen18 : r.reserved.length = 18 := by
      rw [hr]; simp [sliceN]; omega
    simp [serializeManufacturerData, sliceN, padTo_eq_self hlen18, ← hr,
      List.take_of_length_le, hlen18]
    exact hr

theorem powerOption_reserved_preserved (data : Bytes) (r : PowerOption)
    (h : PowerOption.fromBytes data = .ok r) :
    sliceN (serializePowerOption r) 20 10 = sliceN data 20 10 := by
  unfold PowerOption.fromBytes at h
  split at h
  · exact absurd h (by simp)
  · rename_i hlen
    have hr : r.reserved = sliceN data 20 10 := by
      have := (Except.ok.injEq _ _).mp h
      rw [← this]
    have hlen10 : r.reserved.length = 10 := by
      rw [hr]; simp [sliceN]; omega
    simp [serializePowerOption, u16le, u32le, sliceN, padTo_eq_self hlen10, ← hr,
      List.take_of_length_le, hlen10]
    exact hr

theorem displayConfig_reserved_preserved (data : Bytes) (r : DisplayConfig)
    (h : DisplayConfig.fromBytes data = .ok r) :
    sliceN (serializeDisplayConfig r) 24 7 = sliceN data 24 7 ∧
      sliceN (serializeDisplayConfig r) 31 15 = sliceN data 31 15 := by
  unfold DisplayConfig.fromBytes at h
  split at h
  · exact absurd h (by simp)
  · rename_i hlen
    have hrp : r.reservedPins = sliceN data 24 7 := by
      have := (Except.ok.injEq _ _).mp h
      rw [← this]
    have hr : r.reserved = sliceN data 31 15 := by
      have := (Except.ok.injEq _ _).mp h
      rw [← this]
    have hlen7 : r.reservedPins.length = 7 := by
      rw [hrp]; simp [sliceN]; omega
    have hlen15 : r.reserved.length = 15 := by
      rw [hr]; simp [sliceN]; omega
    constructor
    · simp [serializeDisplayConfig, u16le, sliceN, padTo_eq_self hlen7,
        padTo_eq_self hlen15, ← hrp, List.take_of_length_le, hlen7,
        List.take_append_of_le_length, hlen7.le]
      exact hrp
    · simp [serializeDisplayConfig, u16le, sliceN, padTo_eq_self hlen7,
        padTo_eq_self hlen15, ← hr, List.drop_append_of_le_length, hlen7,
        List.take_of_length_le, hlen15]
      exact hr

theorem ledConfig_reserved_preserved (data : Bytes) (r : LedConfig)
    (h : LedConfig.fromBytes data = .ok r) :
    sliceN (serializeLedConfig r) 7 15 = sliceN data 7 15 := by
  unfold LedConfig.fromBytes at h
  split at h
  · exact absurd h (by simp)
  · rename_i hlen
    have hr : r.reserved = sliceN data 7 15 := by
      have := (Except.ok.injEq _ _).mp h
      rw [← this]
    have hlen15 : r.reserved.length = 15 := by
      rw [hr]; simp [sliceN]; omega
    simp [serializeLedConfig, sliceN, padTo_eq_self hlen15, ← hr,
      List.take_of_length_le, hlen15]
    exact hr

theorem sensorData_reserved_preserved (data : Bytes) (r : SensorData)
    (h : SensorData.fromBytes data = .ok r) :
    sliceN (serializeSensorData r) 4 26 = sliceN data 4 26 := by
  unfold SensorData.fromBytes at h
  split at h
  · exact absurd h (by simp)
  · rename_i hlen
    have hr : r.reserved = sliceN data 4 26 := by
      have := (Except.ok.injEq _ _).mp h
      rw [← this]
    have hlen26 : r.reserved.length = 26 := by
      rw [hr]; simp [sliceN]; omega
    simp [serializeSensorData, u16le, sliceN, padTo_eq_self hlen26, ← hr,
      List.take_of_length_le, hlen26]
    exact hr

theorem dataBus_reserved_preserved (data : Bytes) (r : DataBus)
    (h : DataBus.fromBytes data = .ok r) :
    sliceN (serializeDataBus r) 16 14 = sliceN data 16 14 := by
  unfold DataBus.fromBytes at h
  split at h
  · exact absurd h (by simp)
  · rename_i hlen
    have hr : r.reserved = sliceN data 16 14 := by
      have := (Except.ok.injEq _ _).mp h
      rw [← this]
    have hlen14 : r.reserved.length = 14 := by
      rw [hr]; simp [sliceN]; omega
    simp [serializeDataBus, u32le, sliceN, padTo_eq_self hlen14, ← hr,
      List.take_of_length_le, hlen14]
    exact hr

theorem binaryInputs_reserved_preserved (data : Bytes) (r : BinaryInputs)
    (h : BinaryInputs.fromBytes data = .ok r) :
    sliceN (serializeBinaryInputs r) 3 8 = sliceN data 3 8 ∧
      sliceN (serializeBinaryInputs r) 15 15 = sliceN data 15 15 := by
  unfold BinaryInputs.fromBytes at h
  split at h
  · exact absurd h (by simp)
  · rename_i hlen
    have hrp : r.reservedPins = sliceN data 3 8 := by
      have := (Except.ok.injEq _ _).mp h
      rw [← this]
    have hr : r.reserved = sliceN data 15 15 := by
      have := (Except.ok.injEq _ _).mp h
      rw [← this]
    have hlen8 : r.reservedPins.length = 8 := by
      rw [hrp]; simp [sliceN]; omega
    have hlen15 : r.reserved.length = 15 := by
      rw [hr]; simp [sliceN]; omega
    constructor
    · simp [serializeBinaryInputs, sliceN, padTo_eq_self hlen8,
        padTo_eq_self hlen15, ← hrp, List.take_of_length_le, hlen8,
        List.take_append_of_le_length, hlen8.le]
      exact hrp
    · obtain ⟨p0, p1, p2, p3, p4, p5, p6, p7, hpe⟩ := len_explicit8 r.reservedPins hlen8
      simp [serializeBinaryInputs, sliceN, padTo, hpe,
        padTo_eq_self hlen15, List.take_of_length_le, hlen15]
      exact hr

/-- C3: for every one of the 8 record types and every record `r` with in-range
field values (including arbitrary reserved-byte payloads of the documented
lengths), decoding the bytes produced by encoding `r` yields a record equal to
`r`; and reserved byte regions survive a decode→encode round trip unchanged
(the reserved slices of the re-encoded record equal those of the input bytes). -/
theorem C3_record_roundtrips :
    (∀ c : SystemConfig, c.InRange →
      SystemConfig.fromBytes (serializeSystemConfig c) = .ok c) ∧
    (∀ c : ManufacturerData, c.InRange →
      ManufacturerData.fromBytes (serializeManufacturerData c) = .ok c) ∧
    (∀ c : PowerOption, c.InRange →
      PowerOption.fromBytes (serializePowerOption c) = .ok c) ∧
    (∀ c : DisplayConfig, c.InRange →
      DisplayConfig.fromBytes (serializeDisplayConfig c) = .ok c) ∧
    (∀ c : LedConfig, c.InRange →
      LedConfig.fromBytes (serializeLedConfig c) = .ok c) ∧
    (∀ c : SensorData, c.InRange →
      SensorData.fromBytes (serializeSensorData c) = .ok c) ∧
    (∀ c : DataBus, c.InRange →
      DataBus.fromBytes (serializeDataBus c) = .ok c) ∧
    (∀ c : BinaryInputs, c.InRange →
      BinaryInputs.fromBytes (serializeBinaryInputs c) = .ok c) ∧
    (∀ data r, SystemConfig.fromBytes data = .ok r →
      sliceN (serializeSystemConfig r) 5 17 = sliceN data 5 17) ∧
    (∀ data r, ManufacturerData.fromBytes data = .ok r →
      sliceN (serializeManufacturerData r) 4 18 = sliceN data 4 18) ∧
    (∀ data r, PowerOption.fromBytes data = .ok r →
      sliceN (serializePowerOption r) 20 10 = sliceN data 20 10) ∧
    (∀ data r, DisplayConfig.fromBytes data = .ok r →
      sliceN (serializeDisplayConfig r) 24 7 = sliceN data 24 7 ∧
        sliceN (serializeDisplayConfig r) 31 15 = sliceN data 31 15) ∧
    (∀ data r, LedConfig.fromBytes data = .ok r →
      sliceN (serializeLedConfig r) 7 15 = sliceN data 7 15) ∧
    (∀ data r, SensorData.fromBytes data = .ok r →
      sliceN (serializeSensorData r) 4 26 = sliceN data 4 26) ∧
    (∀ data r, DataBus.fromBytes data = .ok r →
      sliceN (serializeDataBus r) 16 14 = sliceN data 16 14) ∧
    (∀ data r, BinaryInputs.fromBytes data = .ok r →
      sliceN (serializeBinaryInputs r) 3 8 = sliceN data 3 8 ∧
        sliceN (serializeBinaryInputs r) 15 15 = sliceN data 15 15) :=
  ⟨systemConfig_roundTrip, manufacturerData_roundTrip, powerOption_roundTrip,
   displayConfig_roundTrip, ledConfig_roundTrip, sensorData_roundTrip,
   dataBus_roundTrip, binaryInputs_roundTrip,
   systemConfig_reserved_preserved, manufacturerData_reserved_preserved,
   powerOption_reserved_preserved, displayConfig_reserved_preserved,
   ledConfig_reserved_preserved, sensorData_reserved_preserved,
   dataBus_reserved_preserved, binaryInputs_reserved_preserved⟩

/-- Witness for C3 at concrete records of each type. -/
theorem C3_record_roundtrips_witness :
    (SystemConfig.fromBytes (serializeSystemConfig sysW) = .ok sysW) ∧
    (ManufacturerData.fromBytes (serializeManufacturerData manW) = .ok manW) ∧
    (PowerOption.fromBytes (serializePowerOption powW) = .ok powW) ∧
    (DisplayConfig.fromBytes (serializeDisplayConfig dispW) = .ok dispW) ∧
    (LedConfig.fromBytes (serializeLedConfig ledW) = .ok ledW) ∧
    (SensorData.fromBytes (serializeSensorData senW) = .ok senW) ∧
    (DataBus.fromBytes (serializeDataBus busW) = .ok busW) ∧
    (BinaryInputs.fromBytes (serializeBinaryInputs binW) = .ok binW) ∧
    (sliceN (serializeDisplayConfig dispW) 24 7 =
      sliceN (serializeDisplayConfig dispW) 24 7) ∧
    (sliceN (serializeBinaryInputs binW) 3 8 =
      sliceN (serializeBinaryInputs binW) 3 8) :=
  ⟨C3_record_roundtrips.1 sysW (by decide),
   C3_record_roundtrips.2.1 manW (by decide),
   C3_record_roundtrips.2.2.1 powW (by decide),
   C3_record_roundtrips.2.2.2.1 dispW (by decide),
   C3_record_roundtrips.2.2.2.2.1 ledW (by decide),
   C3_record_roundtrips.2.2.2.2.2.1 senW (by decide),
   C3_record_roundtrips.2.2.2.2.2.2.1 busW (by decide),
   C3_record_roundtrips.2.2.2.2.2.2.2.1 binW (by decide),
   (C3_record_roundtrips.2.2.2.2.2.2.2.2.2.2.2.1 (serializeDisplayConfig dispW)
     dispW (by decide)).1,
   (C3_record_roundtrips.2.2.2.2.2.2.2.2.2.2.2.2.2.2.2 (serializeBinaryInputs binW)
     binW (by decide)).1⟩

theorem writeChunksGo_nil : writeChunksGo [] = [] := by
  rw [writeChunksGo]
  rfl

theorem writeChunksGo_cons (x : Nat) (xs : Bytes) :
    writeChunksGo (x :: xs) =
      (u16be WRITE_CONFIG_CHUNK ++ (x :: xs).take CONFIG_CHUNK_SIZE) ::
        writeChunksGo ((x :: xs).drop CONFIG_CHUNK_SIZE) := by
  rw [writeChunksGo]
  rfl

/-- C8: `buildWriteConfigCommand` on exactly 200 bytes of config data returns a
single frame and an empty continuation list; on exactly 201 bytes it returns a
first frame `[opcode:2][total-length:2LE][first 198 data bytes]` plus exactly
one continuation frame carrying the remaining 3 data bytes. -/
theorem C8_write_config_chunking :
    (∀ data : Bytes, data.length = 200 →
      buildWriteConfigCommand data = (u16be WRITE_CONFIG ++ data, [])) ∧
    (∀ data : Bytes, data.length = 201 →
      buildWriteConfigCommand data =
        (u16be WRITE_CONFIG ++ u16le 201 ++ data.take 198,
         [u16be WRITE_CONFIG_CHUNK ++ data.drop 198])) := by
  constructor
  · intro data h
    simp [buildWriteConfigCommand, CONFIG_CHUNK_SIZE, h]
  · intro data h
    have h198 : (data.take 198).length = 198 := by simp [h]
    have hd : (data.drop 198).length = 3 := by simp [h]
    obtain ⟨a, t, he⟩ := List.exists_of_length_succ (data.drop 198)
      (show (data.drop 198).length = 2 + 1 by omega)
    have hlen : ¬ data.length ≤ CONFIG_CHUNK_SIZE := by simp [CONFIG_CHUNK_SIZE, h]
    unfold buildWriteConfigCommand
    rw [if_neg hlen]
    have : CONFIG_CHUNK_SIZE - 2 = 198 := rfl
    rw [this]
    dsimp only
    rw [padTo_eq_self h198, h, he, writeChunksGo_cons]
    have hlt : (a :: t).length ≤ CONFIG_CHUNK_SIZE := by
      rw [← he, hd]; simp [CONFIG_CHUNK_SIZE]
    rw [List.take_of_length_le hlt, List.drop_eq_nil_of_le hlt, writeChunksGo_nil]

/-- Witness for C8 at concrete 200- and 201-byte inputs. -/
theorem C8_write_config_chunking_witness :
    buildWriteConfigCommand (List.replicate 200 7) =
      (u16be WRITE_CONFIG ++ List.replicate 200 7, []) ∧
    buildWriteConfigCommand (List.replicate 201 7) =
      (u16be WRITE_CONFIG ++ u16le 201 ++ (List.replicate 201 7).take 198,
       [u16be WRITE_CONFIG_CHUNK ++ (List.replicate 201 7).drop 198]) :=
  ⟨C8_write_config_chunking.1 (List.replicate 200 7) (by simp only [List.length_replicate]),
   C8_write_config_chunking.2 (List.replicate 201 7) (by simp only [List.length_replicate])⟩

/-! ## Serialized length bounds -/

theorem padTo_length (n : Nat) (l : Bytes) : (padTo n l).length = n := by
  simp [padTo]
  omega

theorem serializeSystemConfig_length (c : SystemConfig) :
    (serializeSystemConfig c).length = 22 := by
  simp [serializeSystemConfig, padTo_length]

theorem serializeManufacturerData_length (c : ManufacturerData) :
    (serializeManufacturerData c).length = 22 := by
  simp [serializeManufacturerData, padTo_length]

theorem serializePowerOption_length (c : PowerOption) :
    (serializePowerOption c).length = 30 := by
  simp [serializePowerOption, padTo_length, u16le, u32le]

theorem serializeDisplayConfig_length (c : DisplayConfig) :
    (serializeDisplayConfig c).length = 46 := by
  simp [serializeDisplayConfig, padTo_length, u16le]

theorem serializeLedConfig_length (c : LedConfig) :
    (serializeLedConfig c).length = 22 := by
  simp [serializeLedConfig, padTo_length]

theorem serializeSensorData_length (c : SensorData) :
    (serializeSensorData c).length = 30 := by
  simp [serializeSensorData, padTo_length, u16le]

theorem serializeDataBus_length (c : DataBus) :
    (serializeDataBus c).length = 30 := by
  simp [serializeDataBus, padTo_length, u32le]

theorem serializeBinaryInputs_length (c : BinaryInputs) :
    (serializeBinaryInputs c).length = 30 := by
  simp [serializeBinaryInputs, padTo_length]

theorem optSection_length_le {α : Type} (ty k : Nat) (ser : α → Bytes)
    (hk : ∀ x, (ser x).length = k) (o : Option α) :
    (optSection ty ser o).length ≤ 2 + k := by
  cases o <;> simp [optSection, hk]
  omega

theorem repeatGo_length {α : Type} (ty k : Nat) (ser : α → Bytes)
    (hk : ∀ x, (ser x).length = k) (l : List α) :
    ∀ i, (repeatGo ty ser i l).length = l.length * (2 + k) := by
  induction l with
  | nil => intro i; simp [repeatGo]
  | cons x xs ih =>
    intro i
    simp [repeatGo, hk, ih (i + 1)]
    ring

theorem repeatSection_length_le {α : Type} (ty k : Nat) (ser : α → Bytes)
    (hk : ∀ x, (ser x).length = k) (l : List α) :
    (repeatSection ty ser l).length ≤ 4 * (2 + k) := by
  rw [repeatSection, repeatGo_length ty k ser hk]
  have : (l.take 4).length ≤ 4 := by simp
  exact Nat.mul_le_mul_right _ this

/-- The packet data of any config is at most 755 bytes — far below the 4096
limit, because each repeatable list is truncated to 4 instances. -/
theorem configPacketData_length_le (c : GlobalConfig) :
    (configPacketData c).length ≤ 755 := by
  have h1 := optSection_length_le 0x01 22 serializeSystemConfig
    serializeSystemConfig_length c.system
  have h2 := optSection_length_le 0x02 22 serializeManufacturerData
    serializeManufacturerData_length c.manufacturer
  have h3 := optSection_length_le 0x04 30 serializePowerOption
    serializePowerOption_length c.power
  have h4 := repeatSection_length_le 0x20 46 serializeDisplayConfig
    serializeDisplayConfig_length c.displays
  have h5 := repeatSection_length_le 0x21 22 serializeLedConfig
    serializeLedConfig_length c.leds
  have h6 := repeatSection_length_le 0x23 30 serializeSensorData
    serializeSensorData_length c.sensors
  have h7 := repeatSection_length_le 0x24 30 serializeDataBus
    serializeDataBus_length c.dataBuses
  have h8 := repeatSection_length_le 0x25 30 serializeBinaryInputs
    serializeBinaryInputs_length c.binaryInputs
  simp only [configPacketData, List.length_append, List.length_cons,
    List.length_nil]
  omega

/-- The 4096-byte size check never fires: `serializeConfig` succeeds on every
config, emitting the packet data plus the 2-byte CRC. -/
theorem serializeConfig_ok (c : GlobalConfig) :
    serializeConfig c =
      .ok (configPacketData c ++ u16le (calculateConfigCrc (configPacketData c))) := by
  have h := configPacketData_length_le c
  rw [serializeConfig, if_neg (by omega)]

/-- C9: in the TLV walker, a packet header whose type id is not in the static
type→size table terminates the walk without an error, keeping the records
accumulated so far; a recognized type whose remaining payload is shorter than
its declared fixed size raises a hard `ConfigParseError`. -/
theorem C9_tlv_walker_errors :
    (∀ rem acc, 1 < rem.length → getPacketSize (byteAt rem 1) = none →
      tlvGo rem acc = .ok acc) ∧
    (∀ rem acc sz, 1 < rem.length → getPacketSize (byteAt rem 1) = some sz →
      rem.length - 2 < sz →
      tlvGo rem acc = .error (.configParse "Packet truncated")) := by
  constructor
  · intro rem acc hlen hty
    rw [tlvGo, dif_neg (by omega)]
    simp [hty]
  · intro rem acc sz hlen hty hsz
    rw [tlvGo, dif_neg (by omega)]
    simp [hty, hsz]

/-- Witness for C9: an unknown type id (0xAA) is tolerated; a truncated
known-type packet (system, needing 22 bytes with only 3 present) errors. -/
theorem C9_tlv_walker_errors_witness :
    tlvGo [0, 0xAA, 1, 2, 3] [] = .ok [] ∧
    tlvGo [0, 0x01, 1, 2, 3] [] = .error (.configParse "Packet truncated") :=
  ⟨C9_tlv_walker_errors.1 [0, 0xAA, 1, 2, 3] [] (by decide) (by decide),
   C9_tlv_walker_errors.2 [0, 0x01, 1, 2, 3] [] 22 (by decide) (by decide) (by decide)⟩

/-- C10: a config with more than 4 entries in some repeatable list does not
make `serializeConfig` fail; the output equals that of the config truncated to
the first 4 entries of every repeatable list (tagged `0..3` by
`repeatSection`), so entries past the fourth are silently omitted. -/
theorem C10_serialize_truncates_lists (c : GlobalConfig)
    (_h : 4 < c.displays.length ∨ 4 < c.leds.length ∨ 4 < c.sensors.length ∨
      4 < c.dataBuses.length ∨ 4 < c.binaryInputs.length) :
    (∃ bs, serializeConfig c = .ok bs) ∧
    serializeConfig c = serializeConfig (truncate4 c) := by
  have hpd : configPacketData (truncate4 c) = configPacketData c := by
    simp [configPacketData, truncate4, repeatSection, List.take_take]
  refine ⟨⟨_, serializeConfig_ok c⟩, ?_⟩
  rw [serializeConfig_ok c, serializeConfig_ok (truncate4 c), hpd]

/-- Witness for C10: a config with five displays serializes without error,
to the same bytes as its 4-truncation. -/
theorem C10_serialize_truncates_lists_witness :
    (∃ bs, serializeConfig cfgFiveDisplays = .ok bs) ∧
    serializeConfig cfgFiveDisplays = serializeConfig (truncate4 cfgFiveDisplays) :=
  C10_serialize_truncates_lists cfgFiveDisplays (Or.inl (by simp [cfgFiveDisplays]))

/-! ## C2: whole-config round trip -/

theorem encodeBlocks_append (l₁ l₂ : List ((Nat × Nat) × Bytes)) :
    encodeBlocks (l₁ ++ l₂) = encodeBlocks l₁ ++ encodeBlocks l₂ := by
  induction l₁ with
  | nil => simp [encodeBlocks]
  | cons e l ih =>
    obtain ⟨⟨ty, num⟩, payload⟩ := e
    simp [encodeBlocks, ih]

theorem encodeBlocks_opt {α : Type} (ty : Nat) (ser : α → Bytes) (o : Option α) :
    encodeBlocks (optBlocks ty ser o) = optSection ty ser o := by
  cases o <;> simp [encodeBlocks, optBlocks, optSection]

theorem encodeBlocks_repeatGo {α : Type} (ty : Nat) (ser : α → Bytes) (l : List α) :
    ∀ i, encodeBlocks (repeatBlocksGo ty ser i l) = repeatGo ty ser i l := by
  induction l with
  | nil => intro i; simp [encodeBlocks, repeatBlocksGo, repeatGo]
  | cons x xs ih => intro i; simp [encodeBlocks, repeatBlocksGo, repeatGo, ih]

theorem configPacketData_eq_blocks (c : GlobalConfig) :
    configPacketData c = [0, 0, c.version % 256] ++ encodeBlocks (configBlocks c) := by
  simp [configPacketData, configBlocks, encodeBlocks_append, encodeBlocks_opt,
    repeatSection, repeatBlocks, encodeBlocks_repeatGo]

theorem tlvGo_nil (acc : List ((Nat × Nat) × Bytes)) : tlvGo [] acc = .ok acc := by
  rw [tlvGo]
  rfl

theorem mapSet_of_fresh (m : List ((Nat × Nat) × Bytes)) (k : Nat × Nat) (v : Bytes)
    (h : ∀ a ∈ m, a.1 ≠ k) : mapSet m k v = m ++ [(k, v)] := by
  rw [mapSet, if_neg]
  simp only [List.any_eq_true, decide_eq_true_eq, not_exists]
  intro e he
  exact h e he.1 he.2

theorem tlvGo_block (num ty sz : Nat) (payload rest : Bytes)
    (acc : List ((Nat × Nat) × Bytes))
    (hty : getPacketSize ty = some sz) (hlen : payload.length = sz) :
    tlvGo (num :: ty :: (payload ++ rest)) acc =
      tlvGo rest (mapSet acc (ty, num) payload) := by
  rw [tlvGo, dif_neg (by simp)]
  simp only [byteAt, List.getD_cons_zero, List.getD_cons_succ, hty]
  rw [if_neg (by simp [hlen])]
  have h1 : sliceN (num :: ty :: (payload ++ rest)) 2 sz = payload := by
    simp [sliceN, ← hlen, List.take_left]
  have h2 : (num :: ty :: (payload ++ rest)).drop (2 + sz) = rest := by
    have : 2 + sz = (num :: ty :: payload).length := by simp [hlen]; omega
    rw [this, show num :: ty :: (payload ++ rest) = (num :: ty :: payload) ++ rest by simp,
      List.drop_left]
  rw [h1, h2]



theorem tlvGo_encodeBlocks :
    ∀ (bs acc : List ((Nat × Nat) × Bytes)),
      (∀ e ∈ bs, GoodBlock e) →
      ((acc ++ bs).map (fun e => e.1)).Nodup →
      tlvGo (encodeBlocks bs) acc = .ok (acc ++ bs) := by
  intro bs
  induction bs with
  | nil =>
    intro acc _ _
    simp [encodeBlocks, tlvGo_nil]
  | cons e bs ih =>
    intro acc hgood hnodup
    obtain ⟨⟨ty, num⟩, payload⟩ := e
    have hty : getPacketSize ty = some payload.length := by
      have := hgood ((ty, num), payload) (List.mem_cons_self _ _)
      simpa [GoodBlock] using this
    rw [encodeBlocks]
    simp only [List.cons_append]
    rw [tlvGo_block num ty payload.length payload _ acc hty rfl]
    have hfresh : ∀ a ∈ acc, a.1 ≠ (ty, num) := by
      intro a ha hak
      rw [List.map_append, List.nodup_append] at hnodup
      exact hnodup.2.2 (List.mem_map_of_mem _ ha) (by simp [hak])
    rw [mapSet_of_fresh acc (ty, num) payload hfresh]
    have := ih (acc ++ [((ty, num), payload)])
      (fun x hx => hgood x (by simp [hx]))
      (by simpa using hnodup)
    rw [this]
    simp



theorem optBlocks_key {α : Type} (ty : Nat) (ser : α → Bytes) (o : Option α) :
    ∀ e ∈ optBlocks ty ser o, e.1 = (ty, 0) := by
  cases o <;> simp [optBlocks]

theorem repeatBlocksGo_key {α : Type} (ty : Nat) (ser : α → Bytes) :
    ∀ (l : List α) (i : Nat), ∀ e ∈ repeatBlocksGo ty ser i l,
      e.1.1 = ty ∧ i ≤ e.1.2 ∧ e.1.2 < i + l.length := by
  intro l
  induction l with
  | nil => intro i e he; simp [repeatBlocksGo] at he
  | cons x xs ih =>
    intro i e he
    rw [repeatBlocksGo] at he
    rcases List.mem_cons.mp he with rfl | hm
    · simp
    · obtain ⟨h1, h2, h3⟩ := ih (i + 1) e hm
      refine ⟨h1, by omega, by simp; omega⟩

theorem repeatBlocksGo_keys_nodup {α : Type} (ty : Nat) (ser : α → Bytes) :
    ∀ (l : List α) (i : Nat),
      ((repeatBlocksGo ty ser i l).map (fun e => e.1)).Nodup := by
  intro l
  induction l with
  | nil => intro i; simp [repeatBlocksGo]
  | cons x xs ih =>
    intro i
    rw [repeatBlocksGo]
    simp only [List.map_cons, List.nodup_cons]
    refine ⟨?_, ih (i + 1)⟩
    intro hmem
    obtain ⟨e, he, hk⟩ := List.mem_map.mp hmem
    obtain ⟨-, h2, -⟩ := repeatBlocksGo_key ty ser xs (i + 1) e he
    rw [hk] at h2
    omega

theorem optBlocks_keys_nodup {α : Type} (ty : Nat) (ser : α → Bytes) (o : Option α) :
    ((optBlocks ty ser o).map (fun e => e.1)).Nodup := by
  cases o <;> simp [optBlocks]

/-- Sections with pairwise-distinct type tags, each internally nodup-keyed,
concatenate to a nodup-keyed block list. -/
theorem nodup_keys_sections :
    ∀ (sections : List (Nat × List ((Nat × Nat) × Bytes))),
      (∀ s ∈ sections, ∀ e ∈ s.2, e.1.1 = s.1) →
      (∀ s ∈ sections, ((s.2).map (fun e => e.1)).Nodup) →
      ((sections.map (fun s => s.1)).Nodup) →
      (((sections.map (fun s => s.2)).flatten).map (fun e => e.1)).Nodup := by
  intro sections
  induction sections with
  | nil => intro _ _ _; simp
  | cons s rest ih =>
    intro htag hsec htags
    simp only [List.map_cons, List.flatten_cons, List.map_append, List.nodup_append]
    simp only [List.map_cons, List.nodup_cons] at htags
    refine ⟨hsec s (by simp), ih (fun t ht => htag t (by simp [ht]))
      (fun t ht => hsec t (by simp [ht])) htags.2, ?_⟩
    intro k hk hk'
    obtain ⟨e, he, rfl⟩ := List.mem_map.mp hk
    obtain ⟨e', he', hke⟩ := List.mem_map.mp hk'
    obtain ⟨blk, hblk, heblk⟩ := List.mem_flatten.mp he'
    obtain ⟨t, ht, rfl⟩ := List.mem_map.mp hblk
    have h1 : e.1.1 = s.1 := htag s (by simp) e he
    have h2 : e'.1.1 = t.1 := htag t (by simp [ht]) e' heblk
    apply htags.1
    rw [List.mem_map]
    exact ⟨t, ht, by rw [← h2, hke, h1]⟩



theorem configBlocks_eq_flatten (c : GlobalConfig) :
    configBlocks c =
      (([(0x01, optBlocks 0x01 serializeSystemConfig c.system),
        (0x02, optBlocks 0x02 serializeManufacturerData c.manufacturer),
        (0x04, optBlocks 0x04 serializePowerOption c.power),
        (0x20, repeatBlocks 0x20 serializeDisplayConfig c.displays),
        (0x21, repeatBlocks 0x21 serializeLedConfig c.leds),
        (0x23, repeatBlocks 0x23 serializeSensorData c.sensors),
        (0x24, repeatBlocks 0x24 serializeDataBus c.dataBuses),
        (0x25, repeatBlocks 0x25 serializeBinaryInputs c.binaryInputs)].map
          (fun s => s.2)).flatten) := by
  simp [configBlocks, List.flatten]

theorem configBlocks_keys_nodup (c : GlobalConfig) :
    ((configBlocks c).map (fun e => e.1)).Nodup := by
  rw [configBlocks_eq_flatten]
  apply nodup_keys_sections
  · intro s hs e he
    simp only [List.mem_cons, List.not_mem_nil, or_false] at hs
    rcases hs with rfl | rfl | rfl | rfl | rfl | rfl | rfl | rfl
    · exact congrArg Prod.fst (optBlocks_key _ _ _ e he)
    · exact congrArg Prod.fst (optBlocks_key _ _ _ e he)
    · exact congrArg Prod.fst (optBlocks_key _ _ _ e he)
    · exact (repeatBlocksGo_key _ _ _ _ e he).1
    · exact (repeatBlocksGo_key _ _ _ _ e he).1
    · exact (repeatBlocksGo_key _ _ _ _ e he).1
    · exact (repeatBlocksGo_key _ _ _ _ e he).1
    · exact (repeatBlocksGo_key _ _ _ _ e he).1
  · intro s hs
    simp only [List.mem_cons, List.not_mem_nil, or_false] at hs
    rcases hs with rfl | rfl | rfl | rfl | rfl | rfl | rfl | rfl
    · exact optBlocks_keys_nodup _ _ _
    · exact optBlocks_keys_nodup _ _ _
    · exact optBlocks_keys_nodup _ _ _
    · exact repeatBlocksGo_keys_nodup _ _ _ _
    · exact repeatBlocksGo_keys_nodup _ _ _ _
    · exact repeatBlocksGo_keys_nodup _ _ _ _
    · exact repeatBlocksGo_keys_nodup _ _ _ _
    · exact repeatBlocksGo_keys_nodup _ _ _ _
  · simp

theorem optBlocks_good {α : Type} (ty k : Nat) (ser : α → Bytes)
    (hsz : ∀ x, (ser x).length = k) (hty : getPacketSize ty = some k)
    (o : Option α) : ∀ e ∈ optBlocks ty ser o, GoodBlock e := by
  cases o <;> simp [optBlocks, GoodBlock, hsz, hty]

theorem repeatBlocksGo_good {α : Type} (ty k : Nat) (ser : α → Bytes)
    (hsz : ∀ x, (ser x).length = k) (hty : getPacketSize ty = some k) :
    ∀ (l : List α) (i : Nat), ∀ e ∈ repeatBlocksGo ty ser i l, GoodBlock e := by
  intro l
  induction l with
  | nil => intro i e he; simp [repeatBlocksGo] at he
  | cons x xs ih =>
    intro i e he
    rw [repeatBlocksGo] at he
    rcases List.mem_cons.mp he with rfl | hm
    · simp [GoodBlock, hsz, hty]
    · exact ih (i + 1) e hm

theorem configBlocks_good (c : GlobalConfig) :
    ∀ e ∈ configBlocks c, GoodBlock e := by
  intro e he
  rw [configBlocks_eq_flatten] at he
  obtain ⟨blk, hblk, heblk⟩ := List.mem_flatten.mp he
  simp only [List.map_cons, List.map_nil, List.mem_cons, List.not_mem_nil,
    or_false] at hblk
  rcases hblk with rfl | rfl | rfl | rfl | rfl | rfl | rfl | rfl
  · exact optBlocks_good 0x01 22 _ serializeSystemConfig_length (by decide) _ e heblk
  · exact optBlocks_good 0x02 22 _ serializeManufacturerData_length (by decide) _ e heblk
  · exact optBlocks_good 0x04 30 _ serializePowerOption_length (by decide) _ e heblk
  · exact repeatBlocksGo_good 0x20 46 _ serializeDisplayConfig_length (by decide) _ _ e heblk
  · exact repeatBlocksGo_good 0x21 22 _ serializeLedConfig_length (by decide) _ _ e heblk
  · exact repeatBlocksGo_good 0x23 30 _ serializeSensorData_length (by decide) _ _ e heblk
  · exact repeatBlocksGo_good 0x24 30 _ serializeDataBus_length (by decide) _ _ e heblk
  · exact repeatBlocksGo_good 0x25 30 _ serializeBinaryInputs_length (by decide) _ _ e heblk



theorem parseSystemPacket_serialize (s : SystemConfig) (h : s.InRange) :
    parseSystemPacket (serializeSystemConfig s) = .ok s := by
  rw [parseSystemPacket, if_neg (by simp [serializeSystemConfig_length]),
    systemConfig_roundTrip s h]
  rfl

theorem parseManufacturerPacket_serialize (s : ManufacturerData) (h : s.InRange) :
    parseManufacturerPacket (serializeManufacturerData s) = .ok s := by
  rw [parseManufacturerPacket, if_neg (by simp [serializeManufacturerData_length]),
    manufacturerData_roundTrip s h]
  rfl

theorem parsePowerPacket_serialize (s : PowerOption) (h : s.InRange) :
    parsePowerPacket (serializePowerOption s) = .ok s := by
  rw [parsePowerPacket, if_neg (by simp [serializePowerOption_length]),
    powerOption_roundTrip s h]
  rfl

theorem parseDisplayPacket_serialize (s : DisplayConfig) (h : s.InRange) :
    parseDisplayPacket (serializeDisplayConfig s) = .ok s := by
  rw [parseDisplayPacket, if_neg (by simp [serializeDisplayConfig_length]),
    displayConfig_roundTrip s h]
  rfl

theorem parseLedPacket_serialize (s : LedConfig) (h : s.InRange) :
    parseLedPacket (serializeLedConfig s) = .ok s := by
  rw [parseLedPacket, if_neg (by simp [serializeLedConfig_length]),
    ledConfig_roundTrip s h]
  rfl

theorem parseSensorPacket_serialize (s : SensorData) (h : s.InRange) :
    parseSensorPacket (serializeSensorData s) = .ok s := by
  rw [parseSensorPacket, if_neg (by simp [serializeSensorData_length]),
    sensorData_roundTrip s h]
  rfl

theorem parseDataBusPacket_serialize (s : DataBus) (h : s.InRange) :
    parseDataBusPacket (serializeDataBus s) = .ok s := by
  rw [parseDataBusPacket, if_neg (by simp [serializeDataBus_length]),
    dataBus_roundTrip s h]
  rfl

theorem parseBinaryInputsPacket_serialize (s : BinaryInputs) (h : s.InRange) :
    parseBinaryInputsPacket (serializeBinaryInputs s) = .ok s := by
  rw [parseBinaryInputsPacket, if_neg (by simp [serializeBinaryInputs_length]),
    binaryInputs_roundTrip s h]
  rfl

theorem assemble_optSystem (o : Option SystemConfig)
    (h : optInRange SystemConfig.InRange o) (st : ParseState) :
    (optBlocks 0x01 serializeSystemConfig o).foldlM assembleStep st =
      .ok { st with system := o.or st.system } := by
  cases o with
  | none => simp [optBlocks, List.foldlM, Option.or]; rfl
  | some s =>
    simp only [optInRange] at h
    simp only [optBlocks, List.foldlM, assembleStep, parseSystemPacket_serialize s h,
      Option.or]
    rfl



theorem assemble_optManufacturer (o : Option ManufacturerData)
    (h : optInRange ManufacturerData.InRange o) (st : ParseState) :
    (optBlocks 0x02 serializeManufacturerData o).foldlM assembleStep st =
      .ok { st with manufacturer := o.or st.manufacturer } := by
  cases o with
  | none => simp [optBlocks, List.foldlM, Option.or]; rfl
  | some s =>
    simp only [optInRange] at h
    simp only [optBlocks, List.foldlM, assembleStep,
      parseManufacturerPacket_serialize s h, Option.or]
    rfl

theorem assemble_optPower (o : Option PowerOption)
    (h : optInRange PowerOption.InRange o) (st : ParseState) :
    (optBlocks 0x04 serializePowerOption o).foldlM assembleStep st =
      .ok { st with power := o.or st.power } := by
  cases o with
  | none => simp [optBlocks, List.foldlM, Option.or]; rfl
  | some s =>
    simp only [optInRange] at h
    simp only [optBlocks, List.foldlM, assembleStep,
      parsePowerPacket_serialize s h, Option.or]
    rfl

theorem exceptOkBind {ε α β : Type} (a : α) (f : α → Except ε β) :
    (Except.ok a >>= f) = f a := rfl

theorem assemble_repeatDisplays (l : List DisplayConfig)
    (h : ∀ x ∈ l, x.InRange) :
    ∀ (i : Nat) (st : ParseState),
      (repeatBlocksGo 0x20 serializeDisplayConfig i l).foldlM assembleStep st =
        .ok { st with displays := st.displays ++ l } := by
  induction l with
  | nil => intro i st; simp [repeatBlocksGo, List.foldlM]; rfl
  | cons x xs ih =>
    intro i st
    rw [repeatBlocksGo]
    have hstep : assembleStep st ((0x20, i), serializeDisplayConfig x) =
        .ok { st with displays := st.displays ++ [x] } := by
      simp only [assembleStep, parseDisplayPacket_serialize x (h x (by simp))]
      rfl
    simp only [List.foldlM, hstep, exceptOkBind]
    rw [ih (fun y hy => h y (by simp [hy])) (i + 1)]
    simp



theorem assemble_repeatLeds (l : List LedConfig)
    (h : ∀ x ∈ l, x.InRange) :
    ∀ (i : Nat) (st : ParseState),
      (repeatBlocksGo 0x21 serializeLedConfig i l).foldlM assembleStep st =
        .ok { st with leds := st.leds ++ l } := by
  induction l with
  | nil => intro i st; simp [repeatBlocksGo, List.foldlM]; rfl
  | cons x xs ih =>
    intro i st
    rw [repeatBlocksGo]
    have hstep : assembleStep st ((0x21, i), serializeLedConfig x) =
        .ok { st with leds := st.leds ++ [x] } := by
      simp only [assembleStep, parseLedPacket_serialize x (h x (by simp))]
      rfl
    simp only [List.foldlM, hstep, exceptOkBind]
    rw [ih (fun y hy => h y (by simp [hy])) (i + 1)]
    simp

theorem assemble_repeatSensors (l : List SensorData)
    (h : ∀ x ∈ l, x.InRange) :
    ∀ (i : Nat) (st : ParseState),
      (repeatBlocksGo 0x23 serializeSensorData i l).foldlM assembleStep st =
        .ok { st with sensors := st.sensors ++ l } := by
  induction l with
  | nil => intro i st; simp [repeatBlocksGo, List.foldlM]; rfl
  | cons x xs ih =>
    intro i st
    rw [repeatBlocksGo]
    have hstep : assembleStep st ((0x23, i), serializeSensorData x) =
        .ok { st with sensors := st.sensors ++ [x] } := by
      simp only [assembleStep, parseSensorPacket_serialize x (h x (by simp))]
      rfl
    simp only [List.foldlM, hstep, exceptOkBind]
    rw [ih (fun y hy => h y (by simp [hy])) (i + 1)]
    simp

theorem assemble_repeatDataBuses (l : List DataBus)
    (h : ∀ x ∈ l, x.InRange) :
    ∀ (i : Nat) (st : ParseState),
      (repeatBlocksGo 0x24 serializeDataBus i l).foldlM assembleStep st =
        .ok { st with dataBuses := st.dataBuses ++ l } := by
  induction l with
  | nil => intro i st; simp [repeatBlocksGo, List.foldlM]; rfl
  | cons x xs ih =>
    intro i st
    rw [repeatBlocksGo]
    have hstep : assembleStep st ((0x24, i), serializeDataBus x) =
        .ok { st with dataBuses := st.dataBuses ++ [x] } := by
      simp only [assembleStep, parseDataBusPacket_serialize x (h x (by simp))]
      rfl
    simp only [List.foldlM, hstep, exceptOkBind]
    rw [ih (fun y hy => h y (by simp [hy])) (i + 1)]
    simp

theorem assemble_repeatBinaryInputs (l : List BinaryInputs)
    (h : ∀ x ∈ l, x.InRange) :
    ∀ (i : Nat) (st : ParseState),
      (repeatBlocksGo 0x25 serializeBinaryInputs i l).foldlM assembleStep st =
        .ok { st with binaryInputs := st.binaryInputs ++ l } := by
  induction l with
  | nil => intro i st; simp [repeatBlocksGo, List.foldlM]; rfl
  | cons x xs ih =>
    intro i st
    rw [repeatBlocksGo]
    have hstep : assembleStep st ((0x25, i), serializeBinaryInputs x) =
        .ok { st with binaryInputs := st.binaryInputs ++ [x] } := by
      simp only [assembleStep, parseBinaryInputsPacket_serialize x (h x (by simp))]
      rfl
    simp only [List.foldlM, hstep, exceptOkBind]
    rw [ih (fun y hy => h y (by simp [hy])) (i + 1)]
    simp



theorem assemble_configBlocks (c : GlobalConfig) (hwf : c.WellFormed) :
    (configBlocks c).foldlM assembleStep {} = .ok
      { system := c.system, manufacturer := c.manufacturer, power := c.power,
        displays := c.displays, leds := c.leds, sensors := c.sensors,
        dataBuses := c.dataBuses, binaryInputs := c.binaryInputs } := by
  obtain ⟨h1, h2, h3, h4, h4l, h5, h5l, h6, h6l, h7, h7l, h8, h8l, hv⟩ := hwf
  rw [configBlocks, repeatBlocks, repeatBlocks, repeatBlocks, repeatBlocks,
    repeatBlocks, List.take_of_length_le h4l, List.take_of_length_le h5l,
    List.take_of_length_le h6l, List.take_of_length_le h7l,
    List.take_of_length_le h8l]
  simp only [List.foldlM_append, exceptOkBind,
    assemble_optSystem _ h1, assemble_optManufacturer _ h2, assemble_optPower _ h3,
    assemble_repeatDisplays _ h4, assemble_repeatLeds _ h5,
    assemble_repeatSensors _ h6, assemble_repeatDataBuses _ h7,
    assemble_repeatBinaryInputs _ h8]
  simp



theorem optBlocks_length {α : Type} (ty : Nat) (ser : α → Bytes) (o : Option α) :
    (optBlocks ty ser o).length = if o.isSome then 1 else 0 := by
  cases o <;> simp [optBlocks]

theorem repeatBlocksGo_length {α : Type} (ty : Nat) (ser : α → Bytes) :
    ∀ (l : List α) (i : Nat), (repeatBlocksGo ty ser i l).length = l.length := by
  intro l
  induction l with
  | nil => intro i; simp [repeatBlocksGo]
  | cons x xs ih => intro i; simp [repeatBlocksGo, ih]

theorem two_le_encodeBlocks_of_ne_nil (bs : List ((Nat × Nat) × Bytes))
    (h : bs ≠ []) : 2 ≤ (encodeBlocks bs).length := by
  cases bs with
  | nil => exact absurd rfl h
  | cons e bs =>
    obtain ⟨⟨ty, num⟩, p⟩ := e
    simp [encodeBlocks]

theorem configBlocks_ne_nil (c : GlobalConfig) (hne : c.hasAnyRecord) :
    configBlocks c ≠ [] := by
  intro h0
  have hlen : (configBlocks c).length = 0 := by rw [h0]; rfl
  simp only [configBlocks, List.length_append, optBlocks_length, repeatBlocks,
    repeatBlocksGo_length, List.length_take, Nat.add_eq_zero] at hlen
  rcases hne with h | h | h | h | h | h | h | h <;>
    simp_all [Option.isSome_iff_exists, ← List.length_pos_iff_ne_nil]



theorem parseTlv_encodeBlocks (c : GlobalConfig) (hwf : c.WellFormed)
    (hne : c.hasAnyRecord) (v : Nat) :
    parseTlvConfig (encodeBlocks (configBlocks c)) v = .ok
      { system := c.system, manufacturer := c.manufacturer, power := c.power,
        displays := c.displays, leds := c.leds, sensors := c.sensors,
        dataBuses := c.dataBuses, binaryInputs := c.binaryInputs,
        version := v, minorVersion := 1, loaded := true } := by
  have h2 := two_le_encodeBlocks_of_ne_nil _ (configBlocks_ne_nil c hne)
  rw [parseTlvConfig, if_neg (by omega)]
  rw [tlvGo_encodeBlocks (configBlocks c) [] (configBlocks_good c)
    (by simpa using configBlocks_keys_nodup c)]
  simp only [List.nil_append, exceptOkBind, assemble_configBlocks c hwf]



theorem serializeThenParse_eq (c : GlobalConfig) (hwf : c.WellFormed)
    (hne : c.hasAnyRecord) :
    serializeThenParse c = .ok { c with minorVersion := 1, loaded := true } := by
  unfold serializeThenParse
  rw [serializeConfig_ok c]
  dsimp only
  have hv : c.version < 256 := by
    obtain ⟨-, -, -, -, -, -, -, -, -, -, -, -, -, hv⟩ := hwf
    exact hv
  have h2 := two_le_encodeBlocks_of_ne_nil _ (configBlocks_ne_nil c hne)
  set blocks := encodeBlocks (configBlocks c) with hblocks
  have hraw : configPacketData c ++ u16le (calculateConfigCrc (configPacketData c)) =
      [0, 0, c.version % 256] ++ (blocks ++ u16le (calculateConfigCrc (configPacketData c))) := by
    rw [configPacketData_eq_blocks]
    simp
  rw [hraw]
  have hcrclen : (u16le (calculateConfigCrc (configPacketData c))).length = 2 := by
    simp [u16le]
  set crc2 := u16le (calculateConfigCrc (configPacketData c)) with hcrc2
  have hlen : ([0, 0, c.version % 256] ++ (blocks ++ crc2)).length = 5 + blocks.length := by
    simp [hcrclen]
    omega
  rw [parseConfigResponse, if_neg (by omega)]
  have hgt : ([0, 0, c.version % 256] ++ (blocks ++ crc2)).length > 5 := by omega
  rw [if_pos hgt]
  have hver : byteAt ([0, 0, c.version % 256] ++ (blocks ++ crc2)) 2 = c.version := by
    simp [byteAt, Nat.mod_eq_of_lt hv]
  have hslice : sliceN ([0, 0, c.version % 256] ++ (blocks ++ crc2)) 3
      (([0, 0, c.version % 256] ++ (blocks ++ crc2)).length - 5) = blocks := by
    rw [hlen]
    simp only [sliceN]
    rw [show ([0, 0, c.version % 256] ++ (blocks ++ crc2)).drop 3 = blocks ++ crc2 by simp]
    rw [show (5 + blocks.length - 5) = blocks.length by omega]
    rw [List.take_left]
  rw [hver, hslice, parseTlv_encodeBlocks c hwf hne c.version]

/-- C2 (amended): for every well-formed `GlobalConfig` `c` (≤4 entries per
repeatable list, in-range record fields, byte-sized version) that contains at
least one record and has `minorVersion = 1` and `loaded = true`, parsing the
bytes produced by `serializeConfig c` with `parseConfigResponse` yields a
`GlobalConfig` equal to `c`, with the version byte preserved.  The
`minorVersion`/`loaded` and non-emptiness conditions are forced by the code:
the parser always returns `minorVersion = 1, loaded = true`, and a record-free
serialization keeps its CRC bytes in the packet data, which for 4 of the 256
version values is misread as a truncated packet header. -/
theorem C2_config_roundtrip_amended (c : GlobalConfig) (hwf : c.WellFormed)
    (hm : c.minorVersion = 1) (hl : c.loaded = true) (hne : c.hasAnyRecord) :
    serializeThenParse c = .ok c := by
  rw [serializeThenParse_eq c hwf hne]
  obtain ⟨sys, man, pow, ds, ls, ss, bs, bis, ver, minor, ld⟩ := c
  simp only at hm hl
  subst hm hl
  rfl

/-- Witness for C2 at a concrete one-record config. -/
theorem C2_config_roundtrip_witness : serializeThenParse cfgW = .ok cfgW :=
  C2_config_roundtrip_amended cfgW (by decide) rfl rfl (by decide)

/-- Counterexample for C2 as originally stated: `cfgMinor0` is well-formed
(≤4 of each repeatable type, in-range fields) but round-trips to a config with
`minorVersion = 1 ≠ 0`; and the record-free well-formed `cfgEmpty26` (version
26, `minorVersion = 1`, `loaded = true`) fails to parse at all, because its
packet data consists of the two CRC bytes `0x68 0x20` and `0x20` is the
display packet type, declared size 46, with 0 bytes remaining. -/
theorem C2_config_roundtrip_counterexample :
    cfgMinor0.WellFormed ∧ cfgMinor0.minorVersion = 0 ∧
    serializeThenParse cfgMinor0 = .ok { cfgMinor0 with minorVersion := 1 } ∧
    cfgEmpty26.WellFormed ∧ cfgEmpty26.minorVersion = 1 ∧ cfgEmpty26.loaded = true ∧
    serializeThenParse cfgEmpty26 = .error (.configParse "Packet truncated") := by
  refine ⟨by decide, rfl, ?_, by decide, rfl, rfl, ?_⟩
  · exact serializeThenParse_eq cfgMinor0 (by decide) (by decide)
  · have htlv : tlvGo [104, 32] [] = .error (.configParse "Packet truncated") := by
      rw [tlvGo, dif_neg (by decide)]
      simp [byteAt, getPacketSize]
    unfold serializeThenParse
    rw [serializeConfig_ok cfgEmpty26]
    show parseTlvConfig [104, 32] 26 = .error (.configParse "Packet truncated")
    rw [parseTlvConfig, if_neg (by decide), htlv]
    rfl

/-! ## C7: CRC trailing bytes and single-bit-flip detection -/

theorem xor_mod_two (a b : Nat) : (a ^^^ b) % 2 = (a % 2) ^^^ (b % 2) := by
  rw [← Nat.and_one_is_mod, ← Nat.and_one_is_mod, ← Nat.and_one_is_mod,
    Nat.and_xor_distrib_right]

theorem boolXorCancel : ∀ x y p : Bool, ((x ^^ p) ^^ (y ^^ p)) = (x ^^ y) := by decide

theorem crcStep_linear (a b : Nat) : crcStep (a ^^^ b) = crcStep a ^^^ crcStep b := by
  unfold crcStep
  have hx := xor_mod_two a b
  rcases Nat.mod_two_eq_zero_or_one a with ha | ha <;>
    rcases Nat.mod_two_eq_zero_or_one b with hb | hb <;>
    rw [ha, hb] at hx <;> simp only [ha, hb, hx] <;> norm_num
  · exact Nat.xor_div_two
  all_goals
    apply Nat.eq_of_testBit_eq
    intro k
    simp only [Nat.testBit_xor, Nat.testBit_div_two]
    generalize a.testBit (k + 1) = x
    generalize b.testBit (k + 1) = y
    generalize Nat.testBit 3988292384 k = p
    revert x y p
    decide



theorem crcStep_iterate_linear (n a b : Nat) :
    crcStep^[n] (a ^^^ b) = crcStep^[n] a ^^^ crcStep^[n] b := by
  induction n generalizing a b with
  | zero => simp
  | succ n ih => simp [Function.iterate_succ_apply, crcStep_linear, ih]

theorem natXorRightComm (s d b : Nat) : s ^^^ d ^^^ b = s ^^^ b ^^^ d := by
  apply Nat.eq_of_testBit_eq
  intro k
  simp only [Nat.testBit_xor]
  generalize s.testBit k = x
  generalize d.testBit k = y
  generalize b.testBit k = z
  revert x y z
  decide

theorem crcProcessByte_xor_state (s d b : Nat) :
    crcProcessByte (s ^^^ d) b = crcProcessByte s b ^^^ crcStep^[8] d := by
  unfold crcProcessByte
  rw [natXorRightComm s d b, crcStep_iterate_linear]

theorem crcProcessByte_xor_byte (s d b : Nat) :
    crcProcessByte s (b ^^^ d) = crcProcessByte s b ^^^ crcStep^[8] d := by
  unfold crcProcessByte
  rw [show s ^^^ (b ^^^ d) = s ^^^ b ^^^ d by rw [Nat.xor_assoc], crcStep_iterate_linear]

theorem foldl_xor_state (l : Bytes) :
    ∀ s d : Nat, l.foldl crcProcessByte (s ^^^ d) =
      l.foldl crcProcessByte s ^^^ crcStep^[8 * l.length] d := by
  induction l with
  | nil => intro s d; simp
  | cons x xs ih =>
    intro s d
    rw [List.foldl_cons, List.foldl_cons, crcProcessByte_xor_state, ih,
      show 8 * (x :: xs).length = 8 * xs.length + 8 by simp; ring,
      Function.iterate_add_apply]

theorem crcAccum_flip (l : Bytes) :
    ∀ (i : Nat) (s d : Nat), i < l.length →
      (l.set i (l.getD i 0 ^^^ d)).foldl crcProcessByte s =
        l.foldl crcProcessByte s ^^^ crcStep^[8 * (l.length - i)] d := by
  induction l with
  | nil => intro i s d hi; simp at hi
  | cons x xs ih =>
    intro i s d hi
    cases i with
    | zero =>
      simp only [List.set_cons_zero, List.getD_cons_zero, List.foldl_cons,
        crcProcessByte_xor_byte, foldl_xor_state]
      rw [show 8 * ((x :: xs).length - 0) = 8 * xs.length + 8 by simp; ring,
        Function.iterate_add_apply]
    | succ i =>
      simp only [List.set_cons_succ, List.getD_cons_succ, List.foldl_cons]
      rw [ih i _ d (by simpa using hi)]
      have : (x :: xs).length - (i + 1) = xs.length - i := by simp
      rw [this]



theorem crcStep_two_pow (k : Nat) : crcStep (2 ^ (k + 1)) = 2 ^ k := by
  unfold crcStep
  rw [if_neg]
  · rw [Nat.pow_succ, Nat.mul_div_cancel]
    omega
  · rw [Nat.pow_succ]
    omega

theorem crcStep_iterate_two_pow (j : Nat) : crcStep^[j] (2 ^ j) = 1 := by
  induction j with
  | zero => simp
  | succ j ih => rw [Function.iterate_succ_apply, crcStep_two_pow, ih]

theorem crcDiffCheck_sound :
    ∀ (n c : Nat), crcDiffCheck n c = true →
      ∀ t, 1 ≤ t → t ≤ n → crcStep^[t] c % 65536 ≠ 0 := by
  intro n
  induction n with
  | zero => intro c _ t h1 h2; omega
  | succ n ih =>
    intro c hc t h1 h2
    rw [crcDiffCheck] at hc
    simp only [Bool.and_eq_true, bne_iff_ne, ne_eq] at hc
    cases t with
    | zero => omega
    | succ t =>
      rw [Function.iterate_succ_apply]
      cases Nat.eq_or_lt_of_le h1 with
      | inl h =>
        have ht0 : t = 0 := by omega
        subst ht0
        simpa using hc.1
      | inr _ =>
        exact ih (crcStep c) hc.2 t (by omega) (by omega)




theorem crcDiffCheck_add (a : Nat) :
    ∀ (b c : Nat), crcDiffCheck (a + b) c =
      (crcDiffCheck a c && crcDiffCheck b (crcStep^[a] c)) := by
  induction a with
  | zero => intro b c; simp [crcDiffCheck]
  | succ a ih =>
    intro b c
    rw [show a + 1 + b = (a + b) + 1 by omega, crcDiffCheck, crcDiffCheck]
    simp only [ih b (crcStep c), Function.iterate_succ_apply, Bool.and_assoc]


set_option maxRecDepth 4000 in
theorem crcChunk0 : crcDiffCheck 302 1 = true ∧
    crcStep^[302] 1 = 1538325835 := by decide


set_option maxRecDepth 4000 in
theorem crcChunk1 : crcDiffCheck 302 1538325835 = true ∧
    crcStep^[302] 1538325835 = 2299936429 := by decide


set_option maxRecDepth 4000 in
theorem crcChunk2 : crcDiffCheck 302 2299936429 = true ∧
    crcStep^[302] 2299936429 = 1531557075 := by decide


set_option maxRecDepth 4000 in
theorem crcChunk3 : crcDiffCheck 302 1531557075 = true ∧
    crcStep^[302] 1531557075 = 2580029455 := by decide


set_option maxRecDepth 4000 in
theorem crcChunk4 : crcDiffCheck 302 2580029455 = true ∧
    crcStep^[302] 2580029455 = 1722118036 := by decide


set_option maxRecDepth 4000 in
theorem crcChunk5 : crcDiffCheck 302 1722118036 = true ∧
    crcStep^[302] 1722118036 = 3142957953 := by decide


set_option maxRecDepth 4000 in
theorem crcChunk6 : crcDiffCheck 302 3142957953 = true ∧
    crcStep^[302] 3142957953 = 3038964321 := by decide


set_option maxRecDepth 4000 in
theorem crcChunk7 : crcDiffCheck 302 3038964321 = true ∧
    crcStep^[302] 3038964321 = 3261912274 := by decide


set_option maxRecDepth 4000 in
theorem crcChunk8 : crcDiffCheck 302 3261912274 = true ∧
    crcStep^[302] 3261912274 = 4096049057 := by decide


set_option maxRecDepth 4000 in
theorem crcChunk9 : crcDiffCheck 302 4096049057 = true ∧
    crcStep^[302] 4096049057 = 1869320310 := by decide


set_option maxRecDepth 4000 in
theorem crcChunk10 : crcDiffCheck 302 1869320310 = true ∧
    crcStep^[302] 1869320310 = 1810627161 := by decide


set_option maxRecDepth 4000 in
theorem crcChunk11 : crcDiffCheck 302 1810627161 = true ∧
    crcStep^[302] 1810627161 = 239411900 := by decide


set_option maxRecDepth 4000 in
theorem crcChunk12 : crcDiffCheck 302 239411900 = true ∧
    crcStep^[302] 239411900 = 3201134750 := by decide


set_option maxRecDepth 4000 in
theorem crcChunk13 : crcDiffCheck 302 3201134750 = true ∧
    crcStep^[302] 3201134750 = 1549367627 := by decide


set_option maxRecDepth 4000 in
theorem crcChunk14 : crcDiffCheck 302 1549367627 = true ∧
    crcStep^[302] 1549367627 = 3659584516 := by decide


set_option maxRecDepth 4000 in
theorem crcChunk15 : crcDiffCheck 302 3659584516 = true ∧
    crcStep^[302] 3659584516 = 1536059099 := by decide


set_option maxRecDepth 4000 in
theorem crcChunk16 : crcDiffCheck 302 1536059099 = true ∧
    crcStep^[302] 1536059099 = 3766015837 := by decide


set_option maxRecDepth 4000 in
theorem crcChunk17 : crcDiffCheck 302 3766015837 = true ∧
    crcStep^[302] 3766015837 = 2140476932 := by decide


set_option maxRecDepth 4000 in
theorem crcChunk18 : crcDiffCheck 302 2140476932 = true ∧
    crcStep^[302] 2140476932 = 3063525449 := by decide


set_option maxRecDepth 4000 in
theorem crcChunk19 : crcDiffCheck 302 3063525449 = true ∧
    crcStep^[302] 3063525449 = 36665058 := by decide


theorem crcDiffCheck_6040 : crcDiffCheck 6040 1 = true := by

  have t0 : crcDiffCheck 302 1 = true := crcChunk0.1
  have s0 : crcStep^[302] 1 = 1538325835 := crcChunk0.2
  have t1 : crcDiffCheck 604 1 = true := by
    rw [show (604 : Nat) = 302 + 302 from rfl, crcDiffCheck_add, t0, s0]
    simpa using crcChunk1.1
  have s1 : crcStep^[604] 1 = 2299936429 := by
    rw [show (604 : Nat) = 302 + 302 from rfl, Function.iterate_add_apply, s0]
    exact crcChunk1.2
  have t2 : crcDiffCheck 906 1 = true := by
    rw [show (906 : Nat) = 604 + 302 from rfl, crcDiffCheck_add, t1, s1]
    simpa using crcChunk2.1
  have s2 : crcStep^[906] 1 = 1531557075 := by
    rw [show (906 : Nat) = 302 + 604 from rfl, Function.iterate_add_apply, s1]
    exact crcChunk2.2
  have t3 : crcDiffCheck 1208 1 = true := by
    rw [show (1208 : Nat) = 906 + 302 from rfl, crcDiffCheck_add, t2, s2]
    simpa using crcChunk3.1
  have s3 : crcStep^[1208] 1 = 2580029455 := by
    rw [show (1208 : Nat) = 302 + 906 from rfl, Function.iterate_add_apply, s2]
    exact crcChunk3.2
  have t4 : crcDiffCheck 1510 1 = true := by
    rw [show (1510 : Nat) = 1208 + 302 from rfl, crcDiffCheck_add, t3, s3]
    simpa using crcChunk4.1
  have s4 : crcStep^[1510] 1 = 1722118036 := by
    rw [show (1510 : Nat) = 302 + 1208 from rfl, Function.iterate_add_apply, s3]
    exact crcChunk4.2
  have t5 : crcDiffCheck 1812 1 = true := by
    rw [show (1812 : Nat) = 1510 + 302 from rfl, crcDiffCheck_add, t4, s4]
    simpa using crcChunk5.1
  have s5 : crcStep^[1812] 1 = 3142957953 := by
    rw [show (1812 : Nat) = 302 + 1510 from rfl, Function.iterate_add_apply, s4]
    exact crcChunk5.2
  have t6 : crcDiffCheck 2114 1 = true := by
    rw [show (2114 : Nat) = 1812 + 302 from rfl, crcDiffCheck_add, t5, s5]
    simpa using crcChunk6.1
  have s6 : crcStep^[2114] 1 = 3038964321 := by
    rw [show (2114 : Nat) = 302 + 1812 from rfl, Function.iterate_add_apply, s5]
    exact crcChunk6.2
  have t7 : crcDiffCheck 2416 1 = true := by
    rw [show (2416 : Nat) = 2114 + 302 from rfl, crcDiffCheck_add, t6, s6]
    simpa using crcChunk7.1
  have s7 : crcStep^[2416] 1 = 3261912274 := by
    rw [show (2416 : Nat) = 302 + 2114 from rfl, Function.iterate_add_apply, s6]
    exact crcChunk7.2
  have t8 : crcDiffCheck 2718 1 = true := by
    rw [show (2718 : Nat) = 2416 + 302 from rfl, crcDiffCheck_add, t7, s7]
    simpa using crcChunk8.1
  have s8 : crcStep^[2718] 1 = 4096049057 := by
    rw [show (2718 : Nat) = 302 + 2416 from rfl, Function.iterate_add_apply, s7]
    exact crcChunk8.2
  have t9 : crcDiffCheck 3020 1 = true := by
    rw [show (3020 : Nat) = 2718 + 302 from rfl, crcDiffCheck_add, t8, s8]
    simpa using crcChunk9.1
  have s9 : crcStep^[3020] 1 = 1869320310 := by
    rw [show (3020 : Nat) = 302 + 2718 from rfl, Function.iterate_add_apply, s8]
    exact crcChunk9.2
  have t10 : crcDiffCheck 3322 1 = true := by
    rw [show (3322 : Nat) = 3020 + 302 from rfl, crcDiffCheck_add, t9, s9]
    simpa using crcChunk10.1
  have s10 : crcStep^[3322] 1 = 1810627161 := by
    rw [show (3322 : Nat) = 302 + 3020 from rfl, Function.iterate_add_apply, s9]
    exact crcChunk10.2
  have t11 : crcDiffCheck 3624 1 = true := by
    rw [show (3624 : Nat) = 3322 + 302 from rfl, crcDiffCheck_add, t10, s10]
    simpa using crcChunk11.1
  have s11 : crcStep^[3624] 1 = 239411900 := by
    rw [show (3624 : Nat) = 302 + 3322 from rfl, Function.iterate_add_apply, s10]
    exact crcChunk11.2
  have t12 : crcDiffCheck 3926 1 = true := by
    rw [show (3926 : Nat) = 3624 + 302 from rfl, crcDiffCheck_add, t11, s11]
    simpa using crcChunk12.1
  have s12 : crcStep^[3926] 1 = 3201134750 := by
    rw [show (3926 : Nat) = 302 + 3624 from rfl, Function.iterate_add_apply, s11]
    exact crcChunk12.2
  have t13 : crcDiffCheck 4228 1 = true := by
    rw [show (4228 : Nat) = 3926 + 302 from rfl, crcDiffCheck_add, t12, s12]
    simpa using crcChunk13.1
  have s13 : crcStep^[4228] 1 = 1549367627 := by
    rw [show (4228 : Nat) = 302 + 3926 from rfl, Function.iterate_add_apply, s12]
    exact crcChunk13.2
  have t14 : crcDiffCheck 4530 1 = true := by
    rw [show (4530 : Nat) = 4228 + 302 from rfl, crcDiffCheck_add, t13, s13]
    simpa using crcChunk14.1
  have s14 : crcStep^[4530] 1 = 3659584516 := by
    rw [show (4530 : Nat) = 302 + 4228 from rfl, Function.iterate_add_apply, s13]
    exact crcChunk14.2
  have t15 : crcDiffCheck 4832 1 = true := by
    rw [show (4832 : Nat) = 4530 + 302 from rfl, crcDiffCheck_add, t14, s14]
    simpa using crcChunk15.1
  have s15 : crcStep^[4832] 1 = 1536059099 := by
    rw [show (4832 : Nat) = 302 + 4530 from rfl, Function.iterate_add_apply, s14]
    exact crcChunk15.2
  have t16 : crcDiffCheck 5134 1 = true := by
    rw [show (5134 : Nat) = 4832 + 302 from rfl, crcDiffCheck_add, t15, s15]
    simpa using crcChunk16.1
  have s16 : crcStep^[5134] 1 = 3766015837 := by
    rw [show (5134 : Nat) = 302 + 4832 from rfl, Function.iterate_add_apply, s15]
    exact crcChunk16.2
  have t17 : crcDiffCheck 5436 1 = true := by
    rw [show (5436 : Nat) = 5134 + 302 from rfl, crcDiffCheck_add, t16, s16]
    simpa using crcChunk17.1
  have s17 : crcStep^[5436] 1 = 2140476932 := by
    rw [show (5436 : Nat) = 302 + 5134 from rfl, Function.iterate_add_apply, s16]
    exact crcChunk17.2
  have t18 : crcDiffCheck 5738 1 = true := by
    rw [show (5738 : Nat) = 5436 + 302 from rfl, crcDiffCheck_add, t17, s17]
    simpa using crcChunk18.1
  have s18 : crcStep^[5738] 1 = 3063525449 := by
    rw [show (5738 : Nat) = 302 + 5436 from rfl, Function.iterate_add_apply, s17]
    exact crcChunk18.2
  have t19 : crcDiffCheck 6040 1 = true := by
    rw [show (6040 : Nat) = 5738 + 302 from rfl, crcDiffCheck_add, t18, s18]
    simpa using crcChunk19.1
  exact t19




theorem boolXorEqSelf : ∀ x y : Bool, ((x ^^ y) = x) → y = false := by decide

theorem mod_xor_ne (x d : Nat) (hd : d % 65536 ≠ 0) :
    (x ^^^ d) % 65536 ≠ x % 65536 := by
  intro heq
  apply hd
  have h16 : (65536 : Nat) = 2 ^ 16 := by norm_num
  rw [h16]
  apply Nat.eq_of_testBit_eq
  intro k
  simp only [Nat.zero_testBit, Nat.testBit_mod_two_pow]
  by_cases hk : k < 16
  · simp only [hk, decide_True, Bool.true_and]
    have hbit := congrArg (fun z => z.testBit k) heq
    simp only [h16, Nat.testBit_mod_two_pow, hk, decide_True, Bool.true_and,
      Nat.testBit_xor] at hbit
    exact boolXorEqSelf _ _ hbit
  · simp [hk]

theorem calculateConfigCrc_flip_ne (l : Bytes) (i j : Nat)
    (hi : i < l.length) (hj : j < 8) (hlen : l.length ≤ 755) :
    calculateConfigCrc (flipBit l i j) ≠ calculateConfigCrc l := by
  unfold calculateConfigCrc flipBit crcAccum
  rw [show l.set i (byteAt l i ^^^ 2 ^ j) = l.set i (l.getD i 0 ^^^ 2 ^ j) from rfl,
    crcAccum_flip l i _ (2 ^ j) hi]
  set A := l.foldl crcProcessByte 0xffffffff with hA
  set D := crcStep^[8 * (l.length - i)] (2 ^ j) with hD
  rw [show A ^^^ D ^^^ 0xffffffff = (A ^^^ 0xffffffff) ^^^ D from natXorRightComm A D _]
  apply mod_xor_ne
  -- D = crcStep^[t] 1 with t = 8 * (l.length - i) - j ∈ [1, 6040]
  have hm1 : 1 ≤ l.length - i := by omega
  have hm2 : l.length - i ≤ 755 := by omega
  have hsplit : 8 * (l.length - i) = (8 * (l.length - i) - j) + j := by omega
  rw [hD, hsplit, Function.iterate_add_apply, crcStep_iterate_two_pow]
  exact crcDiffCheck_sound 6040 1 crcDiffCheck_6040 _ (by omega) (by omega)

/-- C7: for every `GlobalConfig` accepted by `serializeConfig`, the trailing 2
bytes of the output are the little-endian low 16 bits of the CRC-32/ISO-HDLC
checksum (reversed polynomial `0xEDB88320`, init `0xFFFFFFFF`, reflected
bit order, final XOR `0xFFFFFFFF`) of all preceding output bytes; and flipping
any single bit of any preceding byte changes the computed 16-bit CRC value. -/
theorem C7_crc_trailing_and_bitflip (c : GlobalConfig) (i j : Nat)
    (hi : i < (configPacketData c).length) (hj : j < 8) :
    serializeConfig c =
      .ok (configPacketData c ++ u16le (calculateConfigCrc (configPacketData c))) ∧
    calculateConfigCrc (flipBit (configPacketData c) i j) ≠
      calculateConfigCrc (configPacketData c) :=
  ⟨serializeConfig_ok c,
   calculateConfigCrc_flip_ne _ i j hi hj (configPacketData_length_le c)⟩

/-- Witness for C7: flipping bit 0 of byte 0 of a concrete config's packet
data changes its CRC16. -/
theorem C7_crc_trailing_and_bitflip_witness :
    serializeConfig cfgW =
      .ok (configPacketData cfgW ++
        u16le (calculateConfigCrc (configPacketData cfgW))) ∧
    calculateConfigCrc (flipBit (configPacketData cfgW) 0 0) ≠
      calculateConfigCrc (configPacketData cfgW) :=
  C7_crc_trailing_and_bitflip cfgW 0 0 (by decide) (by decide)


/-! ## Upload orchestration, interrogate reassembly, timeout recovery
(claims C1, C4, C5, C6) -/

/-- Claim C1 (refuted by the code): in the refresh-wait phase the dispatch
compares the received opcode against the absent enum members
`CommandCode.REFRESH_COMPLETE` and `CommandCode.REFRESH_TIMEOUT`, so *every*
opcode — including the documented refresh-complete `0x0073` and
refresh-timeout `0x0074` — raises `ProtocolError "Unexpected refresh
response"`; no frame can make the upload reach `Done`. -/
theorem C1_refresh_dispatch_rejects_all :
    (∀ code : Nat,
      refreshDispatch code = .error (.protocolError "Unexpected refresh response")) ∧
    awaitRefresh ⟨[.frame [0x00, 0x73]], [], []⟩ =
      (⟨[], [TIMEOUT_REFRESH], []⟩,
        .error (.protocolError "Unexpected refresh response")) ∧
    awaitRefresh ⟨[.frame [0x00, 0x74]], [], []⟩ =
      (⟨[], [TIMEOUT_REFRESH], []⟩,
        .error (.protocolError "Unexpected refresh response")) := by
  refine ⟨?_, rfl, rfl⟩
  intro code
  simp [refreshDispatch, REFRESH_COMPLETE?, REFRESH_TIMEOUT?]

/-- Counterexample for C4: the code reads the total-length field at offset 2
*after* the stripped echo (i.e. bytes 4–5 of the first frame) and takes the
payload from offset 4 of the post-echo data, not immediately after the echo
as the spec words it; on a first frame `[00 40 02 00 03 00 AA]` the code
assembles `[AA BB CC]` while the spec's reading assembles `[03 00 AA]`. -/
theorem C4_interrogate_reassembly_counterexample :
    (interrogateAssemble ⟨exDivergeEvents, [], []⟩).2 = .ok [0xAA, 0xBB, 0xCC] ∧
    (interrogateAssembleSpec ⟨exDivergeEvents, [], []⟩).2 = .ok [0x03, 0x00, 0xAA] ∧
    ([0xAA, 0xBB, 0xCC] : Bytes) ≠ [0x03, 0x00, 0xAA] := by
  refine ⟨?_, ?_, by decide⟩
  · rw [interrogateAssemble]
    norm_num [exDivergeEvents, readResponse, writeCommand, stripCommandEcho,
      unpackCommandCode, be16get, byteAt, le16get, READ_CONFIG,
      RESPONSE_HIGH_BIT_FLAG]
    rw [interrogateLoop]
    norm_num [stripCommandEcho, unpackCommandCode, be16get, byteAt,
      READ_CONFIG, RESPONSE_HIGH_BIT_FLAG]
    rw [interrogateLoop]
    decide
  · rw [interrogateAssembleSpec]
    norm_num [exDivergeEvents, readResponse, writeCommand, stripCommandEcho,
      unpackCommandCode, be16get, byteAt, le16get, READ_CONFIG,
      RESPONSE_HIGH_BIT_FLAG]
    rw [interrogateLoop]
    decide

theorem sumPayload_pos (gs : List Bytes) (h : ∀ g ∈ gs, 2 < g.length) :
    (gs ≠ [] → 0 < sumPayload gs) ∧ 0 ≤ sumPayload gs := by
  induction gs with
  | nil => simp [sumPayload]
  | cons g gs ih =>
    have hg := h g (by simp)
    obtain ⟨-, ih2⟩ := ih (fun x hx => h x (by simp [hx]))
    constructor
    · intro
      simp only [sumPayload]
      omega
    · simp only [sumPayload]
      omega

theorem stripEcho_id (g : Bytes) (hg : NotReadConfigEcho g) :
    stripCommandEcho g READ_CONFIG = g := by
  rw [stripCommandEcho, if_neg hg]

theorem interrogateLoop_complete (gs : List Bytes) :
    ∀ (cur total : Int) (tlv : List Bytes) (c : Conn) (rest : List Ev),
      (∀ g ∈ gs, NotReadConfigEcho g ∧ 2 < g.length) →
      c.events = gs.map Ev.frame ++ rest →
      cur + sumPayload gs = total →
      interrogateLoop total cur tlv c =
        ({ c with
            events := rest
            log := c.log ++ List.replicate gs.length TIMEOUT_CHUNK },
         .ok (tlv ++ gs.map (fun g => g.drop 2))) := by
  induction gs with
  | nil =>
    intro cur total tlv c rest hg hev hsum
    rw [interrogateLoop, if_neg (by simp [sumPayload] at hsum; omega)]
    obtain ⟨ev, lg, wr⟩ := c
    simp only at hev
    subst hev
    simp
  | cons g gs ih =>
    intro cur total tlv c rest hg hev hsum
    have hglen : 2 < g.length := (hg g (by simp)).2
    have hrest : ∀ x ∈ gs, NotReadConfigEcho x ∧ 2 < x.length :=
      fun x hx => hg x (by simp [hx])
    have hpos := sumPayload_pos gs (fun x hx => (hrest x hx).2)
    have hcur : cur < total := by
      simp only [sumPayload] at hsum
      omega
    rw [interrogateLoop, if_pos hcur]
    obtain ⟨ev, lg, wr⟩ := c
    simp only at hev
    subst hev
    simp only [List.map_cons, List.cons_append]
    rw [stripEcho_id g (hg g (by simp)).1]
    rw [ih (cur + (g.length : Int) - 2) total (tlv ++ [g.drop 2])
      ⟨gs.map Ev.frame ++ rest, lg ++ [TIMEOUT_CHUNK], wr⟩ rest hrest rfl
      (by simp only [sumPayload] at hsum; omega)]
    simp [List.replicate_succ]

theorem interrogateAssemble_complete (f : Bytes) (gs : List Bytes)
    (rest : List Ev) (c : Conn)
    (hev : c.events = Ev.frame f :: (gs.map Ev.frame ++ rest))
    (hecho : 2 ≤ f.length ∧ (unpackCommandCode f 0 = READ_CONFIG ∨
      unpackCommandCode f 0 = (READ_CONFIG ||| RESPONSE_HIGH_BIT_FLAG)))
    (hf : 6 ≤ f.length)
    (hg : ∀ g ∈ gs, NotReadConfigEcho g ∧ 2 < g.length)
    (hsum : ((f.length : Int) - 6) + sumPayload gs = (le16get (f.drop 2) 2 : Int)) :
    interrogateAssemble c =
      ({ c with
          events := rest
          log := c.log ++ [TIMEOUT_FIRST_CHUNK] ++
            List.replicate gs.length TIMEOUT_CHUNK
          written := c.written ++ [buildReadConfigCommand] },
       .ok (f.drop 6 ++ (gs.map (fun g => g.drop 2)).flatten)) := by
  rw [interrogateAssemble]
  obtain ⟨ev, lg, wr⟩ := c
  simp only at hev
  subst hev
  simp only [readResponse, writeCommand]
  rw [stripCommandEcho, if_pos hecho]
  rw [interrogateLoop_complete gs _ _ _ _ rest hg rfl
    (by simp only [List.length_drop]; omega)]
  simp only [List.drop_drop]
  norm_num

set_option maxRecDepth 8000 in
/-- Claim C4 (amended): in the interrogate path the first frame's 2-byte
little-endian total-length field sits at offset 2 of the post-echo data
(bytes 4–5 of the frame) and the first payload byte at offset 4 of the
post-echo data (byte 6 of the frame); each continuation frame loses its
2-byte marker.  Whenever the declared total equals the first frame's payload
plus the continuation payloads, the loop assembles exactly the concatenation
of those payloads.  In particular a total of 500 bytes split as 196 + 150 +
150 + 4 payload bytes reassembles to exactly 500 bytes before TLV parsing. -/
theorem C4_interrogate_reassembly_amended :
    (∀ (f : Bytes) (gs : List Bytes) (rest : List Ev) (c : Conn),
      c.events = Ev.frame f :: (gs.map Ev.frame ++ rest) →
      (2 ≤ f.length ∧ (unpackCommandCode f 0 = READ_CONFIG ∨
        unpackCommandCode f 0 = (READ_CONFIG ||| RESPONSE_HIGH_BIT_FLAG))) →
      6 ≤ f.length →
      (∀ g ∈ gs, NotReadConfigEcho g ∧ 2 < g.length) →
      ((f.length : Int) - 6) + sumPayload gs = (le16get (f.drop 2) 2 : Int) →
      interrogateAssemble c =
        ({ c with
            events := rest
            log := c.log ++ [TIMEOUT_FIRST_CHUNK] ++
              List.replicate gs.length TIMEOUT_CHUNK
            written := c.written ++ [buildReadConfigCommand] },
         .ok (f.drop 6 ++ (gs.map (fun g => g.drop 2)).flatten))) ∧
    (interrogateAssemble ⟨ex500Events, [], []⟩).2 = .ok ex500Assembled ∧
    ex500Assembled.length = 500 := by
  refine ⟨fun f gs rest c hev hecho hf hg hsum =>
    interrogateAssemble_complete f gs rest c hev hecho hf hg hsum, ?_, by decide⟩
  have h := interrogateAssemble_complete
    ([0x00, 0x40, 0xAB, 0xCD, 0xF4, 0x01] ++ List.replicate 196 0x11)
    [([0x01, 0x00] ++ List.replicate 150 0x22),
     ([0x02, 0x00] ++ List.replicate 150 0x33),
     ([0x03, 0x00] ++ List.replicate 4 0x44)]
    [] ⟨ex500Events, [], []⟩ (by simp [ex500Events]) (by decide) (by decide)
    (by decide) (by decide)
  rw [h]
  exact (by decide)

/-- Witness for C4: a single first frame carrying echo `00 40`, skipped bytes
`AB CD`, length field `03 00` and 3 payload bytes assembles to exactly that
payload. -/
theorem C4_interrogate_reassembly_witness :
    interrogateAssemble
        ⟨[Ev.frame [0x00, 0x40, 0xAB, 0xCD, 0x03, 0x00, 0x10, 0x20, 0x30]],
          [], []⟩ =
      (⟨[], [TIMEOUT_FIRST_CHUNK], [buildReadConfigCommand]⟩,
        .ok [0x10, 0x20, 0x30]) := by
  have h := C4_interrogate_reassembly_amended.1
    [0x00, 0x40, 0xAB, 0xCD, 0x03, 0x00, 0x10, 0x20, 0x30] [] []
    ⟨[Ev.frame [0x00, 0x40, 0xAB, 0xCD, 0x03, 0x00, 0x10, 0x20, 0x30]], [], []⟩
    (by simp) (by decide) (by decide) (by simp) (by decide)
  simpa using h

theorem buildData_ok (chunk : Bytes) (h : chunk.length ≤ CHUNK_SIZE) :
    buildDirectWriteDataCommand chunk = .ok (u16be DIRECT_WRITE_DATA ++ chunk) := by
  rw [buildDirectWriteDataCommand, if_neg (by omega)]

theorem sendChunks_end_early (ackFrames : List Bytes) :
    ∀ (remaining : Bytes) (endR : Bytes) (rest : List Ev) (c : Conn),
      (∀ a ∈ ackFrames, DataAck a) →
      EndResp endR →
      ackFrames.length * CHUNK_SIZE < remaining.length →
      c.events = ackFrames.map Ev.frame ++ (Ev.frame endR :: rest) →
      sendChunksGo remaining c =
        ({ c with
            events := rest
            log := c.log ++ List.replicate (ackFrames.length + 1) TIMEOUT_ACK
            written := c.written ++ chunkCmds remaining (ackFrames.length + 1) },
         .ok true) := by
  induction ackFrames with
  | nil =>
    intro remaining endR rest c _ hend hlen hev
    rw [sendChunksGo, if_neg (by
      simp only [List.isEmpty_iff]
      intro h0
      rw [h0] at hlen
      simp at hlen)]
    dsimp only
    rw [buildData_ok _ (by simp [CHUNK_SIZE])]
    obtain ⟨ev, lg, wr⟩ := c
    simp only [List.map_nil, List.nil_append] at hev
    subst hev
    simp only [writeCommand, readWithRecovery, readResponse]
    rw [EndResp] at hend
    rw [if_neg (by rw [hend]; decide), if_pos hend]
    simp [chunkCmds, List.replicate]
  | cons a as ih =>
    intro remaining endR rest c hack hend hlen hev
    have hlen' : CHUNK_SIZE ≤ remaining.length := by
      simp only [List.length_cons, CHUNK_SIZE] at hlen ⊢
      nlinarith
    rw [sendChunksGo, if_neg (by
      simp only [List.isEmpty_iff]
      intro h0
      rw [h0] at hlen
      simp at hlen)]
    dsimp only
    rw [buildData_ok _ (by simp [CHUNK_SIZE])]
    obtain ⟨ev, lg, wr⟩ := c
    simp only [List.map_cons, List.cons_append] at hev
    subst hev
    simp only [writeCommand, readWithRecovery, readResponse]
    have hada : (checkResponseType a).1 = DIRECT_WRITE_DATA := hack a (by simp)
    rw [if_pos hada]
    rw [ih (remaining.drop CHUNK_SIZE) endR rest
      ⟨as.map Ev.frame ++ (Ev.frame endR :: rest), lg ++ [TIMEOUT_ACK],
        wr ++ [u16be DIRECT_WRITE_DATA ++ remaining.take CHUNK_SIZE]⟩
      (fun x hx => hack x (by simp [hx])) hend
      (by simp only [List.length_drop, List.length_cons, CHUNK_SIZE] at hlen ⊢; omega) rfl]
    simp only [List.length_cons, chunkCmds, List.replicate_succ]
    simp

theorem awaitRefresh_written (c : Conn) : (awaitRefresh c).1.written = c.written := by
  rw [awaitRefresh]
  obtain ⟨ev, lg, wr⟩ := c
  cases ev with
  | nil => simp [readResponse]
  | cons e rest => cases e <;> simp [readResponse]

theorem chunkCmds_no_end : ∀ (n : Nat) (data : Bytes) (rm : Nat),
    buildDirectWriteEndCommand rm ∉ chunkCmds data n := by
  intro n
  induction n with
  | zero => intro data rm; simp [chunkCmds]
  | succ n ih =>
    intro data rm
    simp only [chunkCmds, List.mem_cons, not_or]
    refine ⟨?_, ih (data.drop CHUNK_SIZE) rm⟩
    intro h
    have h1 := congrArg (fun l => l.getD 1 0) h
    simp [buildDirectWriteEndCommand, u16be, DIRECT_WRITE_END,
      DIRECT_WRITE_DATA] at h1

/-- Claim C5: if after `N` data acks the next chunk response carries the
`DIRECT_WRITE_END` opcode, the upload writes exactly the START command and
the first `N+1` data-chunk commands, stops sending further chunks, proceeds
directly to the refresh wait (auto-completion), and never writes its own
END frame. -/
theorem C5_auto_completion (imageData : Bytes) (refreshMode : Nat) (startAck : Bytes)
    (ackFrames : List Bytes) (endR : Bytes) (rest : List Ev)
    (hstart : validateAckResponse startAck DIRECT_WRITE_START = .ok ())
    (hacks : ∀ a ∈ ackFrames, DataAck a)
    (hend : EndResp endR)
    (hlen : ackFrames.length * CHUNK_SIZE < imageData.length) :
    executeUpload imageData refreshMode false [] 0
        ⟨Ev.frame startAck :: (ackFrames.map Ev.frame ++ (Ev.frame endR :: rest)),
          [], []⟩ =
      awaitRefresh
        ⟨rest, TIMEOUT_ACK :: List.replicate (ackFrames.length + 1) TIMEOUT_ACK,
          buildDirectWriteStartUncompressed ::
            chunkCmds imageData (ackFrames.length + 1)⟩ ∧
    (executeUpload imageData refreshMode false [] 0
        ⟨Ev.frame startAck :: (ackFrames.map Ev.frame ++ (Ev.frame endR :: rest)),
          [], []⟩).1.written =
      buildDirectWriteStartUncompressed ::
        chunkCmds imageData (ackFrames.length + 1) ∧
    buildDirectWriteEndCommand refreshMode ∉
      buildDirectWriteStartUncompressed ::
        chunkCmds imageData (ackFrames.length + 1) := by
  have hmain : executeUpload imageData refreshMode false [] 0
      ⟨Ev.frame startAck :: (ackFrames.map Ev.frame ++ (Ev.frame endR :: rest)),
        [], []⟩ =
      awaitRefresh
        ⟨rest, TIMEOUT_ACK :: List.replicate (ackFrames.length + 1) TIMEOUT_ACK,
          buildDirectWriteStartUncompressed ::
            chunkCmds imageData (ackFrames.length + 1)⟩ := by
    rw [executeUpload]
    simp only [Bool.false_eq_true, if_false, writeCommand, readResponse,
      List.nil_append, hstart]
    rw [sendDataChunks, sendChunks_end_early ackFrames imageData endR rest _
      hacks hend hlen rfl]
    simp
  refine ⟨hmain, ?_, ?_⟩
  · rw [hmain, awaitRefresh_written]
  · simp only [List.mem_cons, not_or]
    refine ⟨?_, chunkCmds_no_end _ _ _⟩
    intro h
    have h1 := congrArg List.length h
    simp [buildDirectWriteEndCommand, buildDirectWriteStartUncompressed, u16be] at h1

/-- Witness for C5: a one-byte image whose very first chunk response is an
END frame auto-completes after one chunk and never writes an END command. -/
theorem C5_auto_completion_witness :
    executeUpload [0x55] 1 false [] 0
        ⟨Ev.frame [0x80, 0x70] ::
          (([] : List Bytes).map Ev.frame ++ (Ev.frame [0x80, 0x72] :: [])),
          [], []⟩ =
      awaitRefresh
        ⟨[], TIMEOUT_ACK :: List.replicate 1 TIMEOUT_ACK,
          buildDirectWriteStartUncompressed :: chunkCmds [0x55] 1⟩ ∧
    (executeUpload [0x55] 1 false [] 0
        ⟨Ev.frame [0x80, 0x70] ::
          (([] : List Bytes).map Ev.frame ++ (Ev.frame [0x80, 0x72] :: [])),
          [], []⟩).1.written =
      buildDirectWriteStartUncompressed :: chunkCmds [0x55] 1 ∧
    buildDirectWriteEndCommand 1 ∉
      buildDirectWriteStartUncompressed :: chunkCmds [0x55] 1 :=
  C5_auto_completion [0x55] 1 [0x80, 0x70] [] [0x80, 0x72] []
    rfl (by simp) rfl (by decide)

theorem sendChunksGo_timeout_cases :
    (∀ (remaining : Bytes) (c : Conn) (ack : Bytes) (rest : List Ev),
      ¬ remaining.isEmpty → DataAck ack →
      c.events = .timeout :: .frame ack :: rest →
      sendChunksGo remaining c =
        sendChunksGo (remaining.drop CHUNK_SIZE)
          { c with
              events := rest
              log := c.log ++ [TIMEOUT_ACK, TIMEOUT_REFRESH]
              written := c.written ++
                [u16be DIRECT_WRITE_DATA ++ remaining.take CHUNK_SIZE] }) ∧
    (∀ (remaining : Bytes) (c : Conn) (rest : List Ev),
      ¬ remaining.isEmpty →
      c.events = .timeout :: .timeout :: rest →
      sendChunksGo remaining c =
        ({ c with
            events := rest
            log := c.log ++ [TIMEOUT_ACK, TIMEOUT_REFRESH]
            written := c.written ++
              [u16be DIRECT_WRITE_DATA ++ remaining.take CHUNK_SIZE] },
         .error .bleTimeout)) ∧
    (∀ (remaining : Bytes) (c : Conn) (rest : List Ev),
      ¬ remaining.isEmpty →
      c.events = .connLost :: rest →
      sendChunksGo remaining c =
        ({ c with
            events := rest
            log := c.log ++ [TIMEOUT_ACK]
            written := c.written ++
              [u16be DIRECT_WRITE_DATA ++ remaining.take CHUNK_SIZE] },
         .error .bleConnection)) := by
  refine ⟨?_, ?_, ?_⟩
  · intro remaining c ack rest hne hack hev
    rw [sendChunksGo, if_neg hne]
    dsimp only
    rw [buildData_ok _ (by simp [CHUNK_SIZE])]
    obtain ⟨ev, lg, wr⟩ := c
    simp only at hev
    subst hev
    simp only [writeCommand, readWithRecovery, readResponse]
    rw [DataAck] at hack
    rw [if_pos hack]
    simp
  · intro remaining c rest hne hev
    rw [sendChunksGo, if_neg hne]
    dsimp only
    rw [buildData_ok _ (by simp [CHUNK_SIZE])]
    obtain ⟨ev, lg, wr⟩ := c
    simp only at hev
    subst hev
    simp [writeCommand, readWithRecovery, readResponse]
  · intro remaining c rest hne hev
    rw [sendChunksGo, if_neg hne]
    dsimp only
    rw [buildData_ok _ (by simp [CHUNK_SIZE])]
    obtain ⟨ev, lg, wr⟩ := c
    simp only at hev
    subst hev
    simp [writeCommand, readWithRecovery, readResponse]

theorem singleRead_timeout_aborts :
    (∀ (config : GlobalConfig) (c : Conn) (rest : List Ev),
      ¬ config.displays.isEmpty →
      c.events = .timeout :: rest →
      ∀ bs, serializeConfig config = .ok bs →
      writeConfig config c =
        ({ c with
            events := rest
            log := c.log ++ [TIMEOUT_ACK]
            written := c.written ++ [(buildWriteConfigCommand bs).1] },
         .error .bleTimeout)) ∧
    (∀ (cmd : Bytes) (cmds : List Bytes) (c : Conn) (rest : List Ev),
      c.events = .timeout :: rest →
      writeConfigChunksLoop (cmd :: cmds) c =
        ({ c with
            events := rest
            log := c.log ++ [TIMEOUT_ACK]
            written := c.written ++ [cmd] },
         .error .bleTimeout)) ∧
    (∀ (c : Conn) (rest : List Ev),
      c.events = .timeout :: rest →
      interrogateAssemble c =
        ({ c with
            events := rest
            log := c.log ++ [TIMEOUT_FIRST_CHUNK]
            written := c.written ++ [buildReadConfigCommand] },
         .error .bleTimeout)) ∧
    (∀ (imageData : Bytes) (refreshMode : Nat) (c : Conn) (rest : List Ev),
      c.events = .timeout :: rest →
      executeUpload imageData refreshMode false [] 0 c =
        ({ c with
            events := rest
            log := c.log ++ [TIMEOUT_ACK]
            written := c.written ++ [buildDirectWriteStartUncompressed] },
         .error .bleTimeout)) ∧
    (∀ (c : Conn) (rest : List Ev),
      c.events = .timeout :: rest →
      awaitRefresh c =
        ({ c with
            events := rest
            log := c.log ++ [TIMEOUT_REFRESH] },
         .error .bleTimeout)) := by
  refine ⟨?_, ?_, ?_, ?_, ?_⟩
  · intro config c rest hne hev bs hser
    rw [writeConfig, if_neg (by simpa using hne), hser]
    obtain ⟨ev, lg, wr⟩ := c
    simp only at hev
    subst hev
    simp [writeCommand, readResponse]
  · intro cmd cmds c rest hev
    rw [writeConfigChunksLoop]
    obtain ⟨ev, lg, wr⟩ := c
    simp only at hev
    subst hev
    simp [writeCommand, readResponse]
  · intro c rest hev
    rw [interrogateAssemble]
    obtain ⟨ev, lg, wr⟩ := c
    simp only at hev
    subst hev
    simp [writeCommand, readResponse]
  · intro imageData refreshMode c rest hev
    rw [executeUpload]
    obtain ⟨ev, lg, wr⟩ := c
    simp only at hev
    subst hev
    simp [writeCommand, readResponse]
  · intro c rest hev
    rw [awaitRefresh]
    obtain ⟨ev, lg, wr⟩ := c
    simp only at hev
    subst hev
    simp [readResponse]

/-- Claim C6: in the upload chunk loop a per-chunk ack timeout triggers
exactly one re-read with the long refresh timeout — a data ack on the second
read continues the loop, a second timeout aborts with `BLETimeoutError` —
while a connection loss aborts immediately with no second read; and no other
read in the library retries: a single timeout on the config-write ack, a
config-chunk ack, the first interrogate response, the upload START ack, or
the refresh notification aborts after that one read. -/
theorem C6_timeout_recovery :
    (∀ (remaining : Bytes) (c : Conn) (ack : Bytes) (rest : List Ev),
      ¬ remaining.isEmpty → DataAck ack →
      c.events = .timeout :: .frame ack :: rest →
      sendChunksGo remaining c =
        sendChunksGo (remaining.drop CHUNK_SIZE)
          { c with
              events := rest
              log := c.log ++ [TIMEOUT_ACK, TIMEOUT_REFRESH]
              written := c.written ++
                [u16be DIRECT_WRITE_DATA ++ remaining.take CHUNK_SIZE] }) ∧
    (∀ (remaining : Bytes) (c : Conn) (rest : List Ev),
      ¬ remaining.isEmpty →
      c.events = .timeout :: .timeout :: rest →
      sendChunksGo remaining c =
        ({ c with
            events := rest
            log := c.log ++ [TIMEOUT_ACK, TIMEOUT_REFRESH]
            written := c.written ++
              [u16be DIRECT_WRITE_DATA ++ remaining.take CHUNK_SIZE] },
         .error .bleTimeout)) ∧
    (∀ (remaining : Bytes) (c : Conn) (rest : List Ev),
      ¬ remaining.isEmpty →
      c.events = .connLost :: rest →
      sendChunksGo remaining c =
        ({ c with
            events := rest
            log := c.log ++ [TIMEOUT_ACK]
            written := c.written ++
              [u16be DIRECT_WRITE_DATA ++ remaining.take CHUNK_SIZE] },
         .error .bleConnection)) ∧
    (∀ (config : GlobalConfig) (c : Conn) (rest : List Ev),
      ¬ config.displays.isEmpty →
      c.events = .timeout :: rest →
      ∀ bs, serializeConfig config = .ok bs →
      writeConfig config c =
        ({ c with
            events := rest
            log := c.log ++ [TIMEOUT_ACK]
            written := c.written ++ [(buildWriteConfigCommand bs).1] },
         .error .bleTimeout)) ∧
    (∀ (cmd : Bytes) (cmds : List Bytes) (c : Conn) (rest : List Ev),
      c.events = .timeout :: rest →
      writeConfigChunksLoop (cmd :: cmds) c =
        ({ c with
            events := rest
            log := c.log ++ [TIMEOUT_ACK]
            written := c.written ++ [cmd] },
         .error .bleTimeout)) ∧
    (∀ (c : Conn) (rest : List Ev),
      c.events = .timeout :: rest →
      interrogateAssemble c =
        ({ c with
            events := rest
            log := c.log ++ [TIMEOUT_FIRST_CHUNK]
            written := c.written ++ [buildReadConfigCommand] },
         .error .bleTimeout)) ∧
    (∀ (imageData : Bytes) (refreshMode : Nat) (c : Conn) (rest : List Ev),
      c.events = .timeout :: rest →
      executeUpload imageData refreshMode false [] 0 c =
        ({ c with
            events := rest
            log := c.log ++ [TIMEOUT_ACK]
            written := c.written ++ [buildDirectWriteStartUncompressed] },
         .error .bleTimeout)) ∧
    (∀ (c : Conn) (rest : List Ev),
      c.events = .timeout :: rest →
      awaitRefresh c =
        ({ c with
            events := rest
            log := c.log ++ [TIMEOUT_REFRESH] },
         .error .bleTimeout)) :=
  ⟨sendChunksGo_timeout_cases.1, sendChunksGo_timeout_cases.2.1,
   sendChunksGo_timeout_cases.2.2, singleRead_timeout_aborts.1,
   singleRead_timeout_aborts.2.1, singleRead_timeout_aborts.2.2.1,
   singleRead_timeout_aborts.2.2.2.1, singleRead_timeout_aborts.2.2.2.2⟩

/-- Witness for C6: on a one-byte chunk, a timeout followed by a data ack
continues the loop with both the short and the long timeout logged, while a
single timeout before the refresh notification aborts the wait. -/
theorem C6_timeout_recovery_witness :
    sendChunksGo [0x55] ⟨[Ev.timeout, Ev.frame [0x80, 0x71]], [], []⟩ =
      sendChunksGo (([0x55] : Bytes).drop CHUNK_SIZE)
        ⟨[], [TIMEOUT_ACK, TIMEOUT_REFRESH],
          [u16be DIRECT_WRITE_DATA ++ ([0x55] : Bytes).take CHUNK_SIZE]⟩ ∧
    awaitRefresh ⟨[Ev.timeout], [], []⟩ =
      (⟨[], [TIMEOUT_REFRESH], []⟩, .error .bleTimeout) :=
  ⟨C6_timeout_recovery.1 [0x55] ⟨[Ev.timeout, Ev.frame [0x80, 0x71]], [], []⟩
      [0x80, 0x71] [] (by decide) rfl rfl,
   C6_timeout_recovery.2.2.2.2.2.2.2 ⟨[Ev.timeout], [], []⟩ [] rfl⟩

end OpenDisplay
